import Mathlib

/-!
Shallow embedding of the Setback (Pitch) card-game server: the card model
(game/card.go), the game record (game/state.go), the action engine
(game/engine.go), the scoring engine (game/scoring.go), and the pieces of the
server dispatch layer (server/protocol.go, server/handlers.go) that the
verified properties mention.  Go's in-place mutation of `*GameState` is
modelled by functions returning the post-call state together with an optional
error; randomness (deck shuffling, session tokens) is modelled by passing the
shuffled deck / fresh token in as parameters.
-/

namespace Setback

/-- Suit from game/card.go (`Spades Suit = iota`). -/
inductive Suit where
  | spades
  | hearts
  | diamonds
  | clubs
deriving DecidableEq, Repr

/-- `Suit.String` from game/card.go. -/
def suitString : Suit → String
  | .spades => "spades"
  | .hearts => "hearts"
  | .diamonds => "diamonds"
  | .clubs => "clubs"

/-- `AllSuits` from game/card.go. -/
def AllSuits : List Suit := [.spades, .hearts, .diamonds, .clubs]

/-- `Suit.OffSuit` from game/card.go: the other suit of the same color. -/
def Suit.OffSuit : Suit → Suit
  | .spades => .clubs
  | .clubs => .spades
  | .hearts => .diamonds
  | .diamonds => .hearts

/-- Go `Rank` is an int (2..14 for real cards); we embed it as `Nat`. -/
abbrev Rank := Nat

/-- `Rank.String` from game/card.go. -/
def rankString (r : Rank) : String :=
  if r = 11 then "jack"
  else if r = 12 then "queen"
  else if r = 13 then "king"
  else if r = 14 then "ace"
  else toString r

/-- `AllRanks` from game/card.go (2..A). -/
def AllRanks : List Rank := [2, 3, 4, 5, 6, 7, 8, 9, 10, 11, 12, 13, 14]

/-- `Rank.GamePoints` from game/card.go: A=4, K=3, Q=2, J=1, 10=10, else 0. -/
def GamePoints (r : Rank) : Int :=
  if r = 14 then 4
  else if r = 13 then 3
  else if r = 12 then 2
  else if r = 11 then 1
  else if r = 10 then 10
  else 0

/-- `Card` from game/card.go. -/
structure Card where
  ID : String
  Suit : Suit
  Rank : Rank
deriving DecidableEq, Repr

/-- `NewCard` from game/card.go: the ID is `"<rank>_<suit>"`. -/
def NewCard (suit : Suit) (rank : Rank) : Card :=
  { ID := rankString rank ++ "_" ++ suitString suit, Suit := suit, Rank := rank }

/-- `Card.IsTrump` from game/card.go: same suit as trump, or the off jack. -/
def Card.IsTrump (c : Card) (trump : Setback.Suit) : Bool :=
  if c.Suit = trump then true
  else if c.Rank = 11 ∧ c.Suit = trump.OffSuit then true
  else false

/-- `Card.IsOffJack` from game/card.go. -/
def Card.IsOffJack (c : Card) (trump : Setback.Suit) : Bool :=
  c.Rank = 11 ∧ c.Suit = trump.OffSuit

/-- `Card.TrumpRank` from game/card.go: the off jack gets 10.5, every other
card its raw rank (Go returns a float64; we use ℚ). -/
def Card.TrumpRank (c : Card) (trump : Setback.Suit) : ℚ :=
  if c.IsOffJack trump then 10.5 else (c.Rank : ℚ)

/-- `Card.Beats` from game/card.go. -/
def Card.Beats (c other : Card) (trump leadSuit : Setback.Suit) : Bool :=
  let cIsTrump := c.IsTrump trump
  let otherIsTrump := other.IsTrump trump
  if cIsTrump ∧ ¬otherIsTrump then true
  else if ¬cIsTrump ∧ otherIsTrump then false
  else if cIsTrump ∧ otherIsTrump then decide (c.TrumpRank trump > other.TrumpRank trump)
  else if c.Suit = other.Suit then decide (c.Rank > other.Rank)
  else if c.Suit = leadSuit then true
  else false

/-- `NewDeck` from game/card.go: the 52 cards, suits × ranks in order. -/
def NewDeck : List Card :=
  AllSuits.flatMap (fun suit => AllRanks.map (fun rank => NewCard suit rank))

/-- `Deck.Deal` from game/card.go: removes and returns the first `n` cards
(clamped to the remaining size).  Result: (dealt, rest). -/
def Deal (cards : List Card) (n : Nat) : List Card × List Card :=
  (cards.take n, cards.drop n)

/-- `Phase` from game/state.go. -/
inductive Phase where
  | lobby
  | bidding
  | kitty
  | discard
  | playing
  | scoring
  | finished
deriving DecidableEq, Repr

/-- `Player` from game/state.go. -/
structure Player where
  Name : String
  SeatIndex : Int
  Hand : List Card
  SessionToken : String
  Connected : Bool
deriving DecidableEq, Repr

/-- `Team` from game/state.go. -/
structure Team where
  PlayerIndices : List Int
  Score : Int
  GamesWon : Int
deriving DecidableEq, Repr

/-- `Bid` from game/state.go: amount 0 = pass. -/
structure Bid where
  PlayerIndex : Int
  Amount : Int
deriving DecidableEq, Repr

/-- `TrickCard` from game/state.go. -/
structure TrickCard where
  Card : Card
  PlayerIndex : Int
deriving DecidableEq, Repr

/-- `Trick` from game/state.go.  `LeadSuit` and `Winner` have Go zero values
spades / 0 until assigned. -/
structure Trick where
  Cards : List TrickCard
  Leader : Int
  LeadSuit : Suit
  Winner : Int
deriving DecidableEq, Repr

/-- `CompletedTrick` from game/state.go. -/
structure CompletedTrick where
  Cards : List TrickCard
  Winner : Int
deriving DecidableEq, Repr

/-- `GameState` from game/state.go.  Go's nil-able pointers/slices become
`Option`s; the fixed-size arrays `[4]*Player`, `[2]*Team`, `[4]bool`,
`[4][]string`, `[2][]Card` become lists of length 4 / pairs. -/
structure GameState where
  Phase : Phase
  Players : List (Option Player)
  Teams : Team × Team
  Deck : Option (List Card)
  CurrentTrick : Option Trick
  LastTrick : Option Trick
  Trump : Option Suit
  Bids : List Bid
  Dealer : Int
  CurrentPlayer : Int
  TricksPlayed : Nat
  BidWinner : Int
  WinningBid : Int
  TargetScore : Int
  House : Int
  Kitty : List Card
  DiscardComplete : List Bool
  PendingDiscards : List (Option (List String))
  CompletedTricks : List CompletedTrick
  CardsWon : List Card × List Card
  TrumpBroken : Bool
deriving DecidableEq, Repr

/-- `NewGameState` from game/state.go: fresh lobby-phase game. -/
def NewGameState (targetScore : Int) : GameState where
  Phase := .lobby
  Players := [none, none, none, none]
  Teams := ({ PlayerIndices := [0, 2], Score := 0, GamesWon := 0 },
            { PlayerIndices := [1, 3], Score := 0, GamesWon := 0 })
  Deck := none
  CurrentTrick := none
  LastTrick := none
  Trump := none
  Bids := []
  Dealer := 0
  CurrentPlayer := 0
  TricksPlayed := 0
  BidWinner := 0
  WinningBid := 0
  TargetScore := targetScore
  House := -1
  Kitty := []
  DiscardComplete := [false, false, false, false]
  PendingDiscards := [none, none, none, none]
  CompletedTricks := []
  CardsWon := ([], [])
  TrumpBroken := false

/-- `GameState.GetTeamForPlayer` from game/state.go: team 0 for seats 0 and 2,
team 1 otherwise. -/
def GetTeamForPlayer (playerIndex : Int) : Int :=
  if playerIndex = 0 ∨ playerIndex = 2 then 0 else 1

/-- Reads `state.Players[i]` (Go panics outside 0..3; those indices are never
reached on the guarded paths we verify). -/
def GameState.playerAt (s : GameState) (i : Int) : Option Player :=
  (s.Players.getD i.toNat none)

/-- Writes `state.Players[i]`. -/
def GameState.setPlayer (s : GameState) (i : Int) (p : Option Player) : GameState :=
  { s with Players := s.Players.set i.toNat p }

/-- `GameState.AllPlayersSeated` from game/state.go. -/
def GameState.AllPlayersSeated (s : GameState) : Bool :=
  s.Players.all (fun p => p.isSome)

/-- `NextPlayer` from game/state.go: `(current + 1) % 4`. -/
def NextPlayer (current : Int) : Int :=
  (current + 1) % 4

/-- `GameState.PlayerAfterDealer` from game/state.go. -/
def GameState.PlayerAfterDealer (s : GameState) : Int :=
  NextPlayer s.Dealer

/-- Reads `state.CardsWon[team]` (team is 0 or 1). -/
def GameState.cardsWonAt (s : GameState) (team : Int) : List Card :=
  if team = 0 then s.CardsWon.1 else s.CardsWon.2

/-- `ScoreResult` from game/scoring.go. -/
structure ScoreResult where
  HighTeam : Int
  HighCard : String
  LowTeam : Int
  LowCard : String
  JackTeam : Int
  OffJackTeam : Int
  GameTeam : Int
  Team0Points : Int
  Team1Points : Int
  BidderTeam : Int
  BidAmount : Int
  BidMade : Bool
  Team0Change : Int
  Team1Change : Int
  GamePoints : Int × Int
deriving DecidableEq, Repr

/-- One step of the High/Low scan in `CalculateScore` (game/scoring.go): only
actual trump-suit cards update the running high/low (card, player) pairs. -/
def highLowStep (trump : Suit)
    (acc : Option (Card × Int) × Option (Card × Int)) (tc : TrickCard) :
    Option (Card × Int) × Option (Card × Int) :=
  if tc.Card.Suit = trump then
    let hi := match acc.1 with
      | none => some (tc.Card, tc.PlayerIndex)
      | some (hc, hp) =>
          if tc.Card.Rank > hc.Rank then some (tc.Card, tc.PlayerIndex) else some (hc, hp)
    let lo := match acc.2 with
      | none => some (tc.Card, tc.PlayerIndex)
      | some (lc, lp) =>
          if tc.Card.Rank < lc.Rank then some (tc.Card, tc.PlayerIndex) else some (lc, lp)
    (hi, lo)
  else acc

/-- The High/Low loop of `CalculateScore`: fold over every card of every
completed trick in play order. -/
def scanHighLow (trump : Suit) (tricks : List CompletedTrick) :
    Option (Card × Int) × Option (Card × Int) :=
  (tricks.flatMap (·.Cards)).foldl (highLowStep trump) (none, none)

/-- The Jack / Off-Jack loops of `CalculateScore`: the team of the winner of
the first completed trick containing a card satisfying `pred`, `-1` if none. -/
def findCapturingTeam (pred : Card → Bool) : List CompletedTrick → Int
  | [] => -1
  | t :: rest =>
      if t.Cards.any (fun tc => pred tc.Card) then GetTeamForPlayer t.Winner
      else findCapturingTeam pred rest

/-- The per-category increment in `CalculateScore`:
`if team == 0 { t0++ } else if team == 1 { t1++ }`. -/
def awardTo (team : Int) (pts : Int × Int) : Int × Int :=
  if team = 0 then (pts.1 + 1, pts.2)
  else if team = 1 then (pts.1, pts.2 + 1)
  else pts

/-- Sum of game-point values of a list of captured cards. -/
def gamePointsOf (cards : List Card) : Int :=
  cards.foldl (fun acc c => acc + GamePoints c.Rank) 0

/-- `CalculateScore` from game/scoring.go. -/
def CalculateScore (s : GameState) : ScoreResult :=
  let base : ScoreResult :=
    { HighTeam := -1, HighCard := "", LowTeam := -1, LowCard := "",
      JackTeam := -1, OffJackTeam := -1, GameTeam := -1,
      Team0Points := 0, Team1Points := 0,
      BidderTeam := GetTeamForPlayer s.BidWinner, BidAmount := s.WinningBid,
      BidMade := false, Team0Change := 0, Team1Change := 0, GamePoints := (0, 0) }
  match s.Trump with
  | none => base
  | some trump =>
    let hl := scanHighLow trump s.CompletedTricks
    let highTeam := match hl.1 with
      | none => (-1 : Int)
      | some (_, hp) => GetTeamForPlayer hp
    let highCard := match hl.1 with
      | none => ""
      | some (hc, _) => hc.ID
    let lowTeam := match hl.2 with
      | none => (-1 : Int)
      | some (_, lp) => GetTeamForPlayer lp
    let lowCard := match hl.2 with
      | none => ""
      | some (lc, _) => lc.ID
    let jackTeam :=
      findCapturingTeam (fun c => c.Suit = trump ∧ c.Rank = 11) s.CompletedTricks
    let offJackTeam :=
      findCapturingTeam (fun c => c.Suit = trump.OffSuit ∧ c.Rank = 11) s.CompletedTricks
    let gp0 := gamePointsOf s.CardsWon.1
    let gp1 := gamePointsOf s.CardsWon.2
    let gameTeam := if gp0 > gp1 then (0 : Int) else if gp1 > gp0 then 1 else -1
    let pts :=
      awardTo gameTeam (awardTo offJackTeam (awardTo jackTeam
        (awardTo lowTeam (awardTo highTeam (0, 0)))))
    let bidderTeamPoints := if base.BidderTeam = 1 then pts.2 else pts.1
    let bidMade := bidderTeamPoints ≥ s.WinningBid
    let changes :=
      if bidMade then (pts.1, pts.2)
      else if base.BidderTeam = 0 then (-s.WinningBid, pts.2)
      else (pts.1, -s.WinningBid)
    { base with
      HighTeam := highTeam, HighCard := highCard,
      LowTeam := lowTeam, LowCard := lowCard,
      JackTeam := jackTeam, OffJackTeam := offJackTeam, GameTeam := gameTeam,
      Team0Points := pts.1, Team1Points := pts.2,
      BidMade := bidMade,
      Team0Change := changes.1, Team1Change := changes.2,
      GamePoints := (gp0, gp1) }

/-- `ApplyScore` from game/scoring.go: add each team's change to its
cumulative score. -/
def ApplyScore (s : GameState) (result : ScoreResult) : GameState :=
  { s with Teams :=
      ({ s.Teams.1 with Score := s.Teams.1.Score + result.Team0Change },
       { s.Teams.2 with Score := s.Teams.2.Score + result.Team1Change }) }

/-- `CheckGameOver` from game/engine.go. -/
def CheckGameOver (s : GameState) : Bool × Int :=
  if s.Teams.1.Score ≥ s.TargetScore then (true, 0)
  else if s.Teams.2.Score ≥ s.TargetScore then (true, 1)
  else (false, -1)

/-- `ActionType` from game/engine.go. -/
inductive ActionType where
  | joinSeat
  | leaveSeat
  | changeName
  | kickPlayer
  | transferHouse
  | startGame
  | placeBid
  | selectTrump
  | takeKitty
  | discard
  | discardDraw
  | playCard
  | resetGame
deriving DecidableEq, Repr

/-- `Action` from game/engine.go.  `CardIDs` is a Go slice that callers fill
from the client message; we model it as a plain list. -/
structure Action where
  Kind : ActionType
  PlayerIndex : Int
  PlayerName : String
  BidAmount : Int
  CardID : String
  TrumpSuit : String
  CardIDs : List String
  TargetSeat : Int
deriving DecidableEq, Repr

/-- The error values of game/engine.go (both the shared `Err*` variables and
the inline `errors.New`/`fmt.Errorf` messages).  `panicNilDeref` stands for a
Go nil-pointer dereference (a crash, reachable only outside the states the
engine's guards keep it in). -/
inductive Err where
  | notYourTurn
  | invalidAction
  | seatTaken
  | seatEmpty
  | notEnoughPlayers
  | invalidBid
  | bidTooLow (highBid : Int)
  | cardNotInHand
  | cardNotInKitty
  | mustFollowSuit
  | invalidTrump
  | mustDiscardToSix
  | invalidSeatIndex
  | onlyHouseStart
  | onlyHouseTransfer
  | onlyHouseKick
  | onlyHouseReset
  | alreadyHouse
  | cannotKickSelf
  | targetSeatUnavailable
  | mustSelectTrumpFirst
  | mustTakeKittyFirst
  | alreadyDiscarded
  | panicNilDeref
deriving DecidableEq, Repr

/-- The effects the engine takes from the outside world: the freshly shuffled
deck built by `NewDeck().Shuffle()` and the token from
`GenerateSessionToken()` (both random in Go, passed in here). -/
structure ActEnv where
  shuffled : List Card
  token : String
deriving Repr

/-- `Go`'s in-place update `state.Players[i].Hand = h` (nil player = panic in
Go, never reached on the guarded paths; modelled as a no-op). -/
def setHandAt (s : GameState) (i : Int) (h : List Card) : GameState :=
  match s.playerAt i with
  | none => s
  | some p => s.setPlayer i (some { p with Hand := h })

/-- The find-card-by-ID-and-remove pattern used throughout game/engine.go:
first index `i` with `cards[i].ID == cardID`, removed. -/
def removeFirstByID : List Card → String → Option (Card × List Card)
  | [], _ => none
  | c :: rest, cardID =>
      if c.ID = cardID then some (c, rest)
      else match removeFirstByID rest cardID with
        | none => none
        | some (found, rest') => some (found, c :: rest')

/-- The card-moving loop of `applyTakeKitty` (game/engine.go): moves each
named card from the kitty to the hand, stopping with `ErrCardNotInKitty` at
the first id not present — cards already moved stay moved. -/
def takeKittyLoop : List String → List Card → List Card →
    List Card × List Card × Option Err
  | [], kitty, hand => (kitty, hand, none)
  | cardID :: rest, kitty, hand =>
      match removeFirstByID kitty cardID with
      | none => (kitty, hand, some .cardNotInKitty)
      | some (c, kitty') => takeKittyLoop rest kitty' (hand ++ [c])

/-- The card-removing loop of `applyDiscard` / `processDiscard`
(game/engine.go): removes each named card from the hand, stopping with
`ErrCardNotInHand` at the first id not held — cards already removed stay
removed. -/
def removeCardsLoop : List String → List Card → List Card × Option Err
  | [], hand => (hand, none)
  | cardID :: rest, hand =>
      match removeFirstByID hand cardID with
      | none => (hand, some .cardNotInHand)
      | some (_, hand') => removeCardsLoop rest hand'

/-- `applyJoinSeat` from game/engine.go. -/
def applyJoinSeat (env : ActEnv) (s : GameState) (a : Action) :
    GameState × Option Err :=
  if s.Phase ≠ .lobby then (s, some .invalidAction)
  else if a.PlayerIndex < 0 ∨ a.PlayerIndex > 3 then (s, some .invalidSeatIndex)
  else if (s.playerAt a.PlayerIndex).isSome then (s, some .seatTaken)
  else
    let isFirstPlayer := s.House = -1
    let s1 := s.setPlayer a.PlayerIndex (some
      { Name := a.PlayerName, SeatIndex := a.PlayerIndex, Hand := [],
        SessionToken := env.token, Connected := true })
    if isFirstPlayer then
      ({ s1 with House := a.PlayerIndex, Dealer := a.PlayerIndex }, none)
    else (s1, none)

/-- `applyLeaveSeat` from game/engine.go. -/
def applyLeaveSeat (s : GameState) (a : Action) : GameState × Option Err :=
  if a.PlayerIndex < 0 ∨ a.PlayerIndex > 3 then (s, some .invalidSeatIndex)
  else match s.playerAt a.PlayerIndex with
    | none => (s, some .seatEmpty)
    | some p =>
        if s.Phase = .lobby then (s.setPlayer a.PlayerIndex none, none)
        else (s.setPlayer a.PlayerIndex
          (some { p with Connected := false, Name := "" }), none)

/-- `applyChangeName` from game/engine.go. -/
def applyChangeName (s : GameState) (a : Action) : GameState × Option Err :=
  if a.PlayerIndex < 0 ∨ a.PlayerIndex > 3 then (s, some .invalidSeatIndex)
  else match s.playerAt a.PlayerIndex with
    | none => (s, some .seatEmpty)
    | some p =>
        (s.setPlayer a.PlayerIndex (some { p with Name := a.PlayerName }), none)

/-- `applyTransferHouse` from game/engine.go. -/
def applyTransferHouse (s : GameState) (a : Action) : GameState × Option Err :=
  if a.PlayerIndex ≠ s.House then (s, some .onlyHouseTransfer)
  else if a.TargetSeat < 0 ∨ a.TargetSeat > 3 then (s, some .invalidSeatIndex)
  else if a.TargetSeat = s.House then (s, some .alreadyHouse)
  else match s.playerAt a.TargetSeat with
    | none => (s, some .targetSeatUnavailable)
    | some p =>
        if ¬p.Connected ∨ p.Name = "" then (s, some .targetSeatUnavailable)
        else ({ s with House := a.TargetSeat }, none)

/-- `applyKickPlayer` from game/engine.go. -/
def applyKickPlayer (s : GameState) (a : Action) : GameState × Option Err :=
  if a.PlayerIndex ≠ s.House then (s, some .onlyHouseKick)
  else if a.TargetSeat < 0 ∨ a.TargetSeat > 3 then (s, some .invalidSeatIndex)
  else if a.TargetSeat = s.House then (s, some .cannotKickSelf)
  else match s.playerAt a.TargetSeat with
    | none => (s, some .seatEmpty)
    | some p =>
        if s.Phase = .lobby then (s.setPlayer a.TargetSeat none, none)
        else (s.setPlayer a.TargetSeat
          (some { p with Connected := false, Name := "", SessionToken := "" }), none)

/-- `applyStartGame` from game/engine.go: house-only, lobby-only, all four
seats filled; builds/shuffles the deck (passed in via `env`), deals 6 cards
to each seat and 6 to the kitty, clears per-hand tracking and enters bidding
with seat-to-act left of the dealer. -/
def applyStartGame (env : ActEnv) (s : GameState) (a : Action) :
    GameState × Option Err :=
  if s.Phase ≠ .lobby then (s, some .invalidAction)
  else if a.PlayerIndex ≠ s.House then (s, some .onlyHouseStart)
  else if ¬s.AllPlayersSeated then (s, some .notEnoughPlayers)
  else
    let d0 := env.shuffled
    let r0 := Deal d0 6
    let r1 := Deal r0.2 6
    let r2 := Deal r1.2 6
    let r3 := Deal r2.2 6
    let rk := Deal r3.2 6
    let s1 := setHandAt (setHandAt (setHandAt (setHandAt s 0 r0.1) 1 r1.1) 2 r2.1) 3 r3.1
    ({ s1 with
        Deck := some rk.2,
        Kitty := rk.1,
        Phase := .bidding,
        CurrentPlayer := s.PlayerAfterDealer,
        Bids := [],
        Trump := none,
        TricksPlayed := 0,
        CompletedTricks := [],
        CardsWon := ([], []),
        LastTrick := none,
        DiscardComplete := [false, false, false, false],
        PendingDiscards := [none, none, none, none],
        TrumpBroken := false }, none)

/-- The high-bid fold of `applyPlaceBid` (game/engine.go). -/
def highBidOf (bids : List Bid) : Int :=
  bids.foldl (fun h b => if b.Amount > h then b.Amount else h) 0

/-- The winner fold of `applyPlaceBid` (game/engine.go): running
(high bid, bid winner), the winner defaulting to the dealer. -/
def bidWinnerOf (bids : List Bid) (dealer : Int) : Int × Int :=
  bids.foldl
    (fun (acc : Int × Int) b =>
      if b.Amount > acc.1 then (b.Amount, b.PlayerIndex) else acc)
    (0, dealer)

/-- `applyPlaceBid` from game/engine.go. -/
def applyPlaceBid (s : GameState) (a : Action) : GameState × Option Err :=
  if s.Phase ≠ .bidding then (s, some .invalidAction)
  else if a.PlayerIndex ≠ s.CurrentPlayer then (s, some .notYourTurn)
  else
    let highBid := highBidOf s.Bids
    if a.BidAmount ≠ 0 ∧ (a.BidAmount < 2 ∨ a.BidAmount > 6) then
      (s, some .invalidBid)
    else if a.BidAmount ≠ 0 ∧ a.BidAmount ≤ highBid then
      (s, some (.bidTooLow highBid))
    else
      let isDealer := a.PlayerIndex = s.Dealer
      let allOthersPassed := s.Bids.length = 3 ∧ highBid = 0
      let amount :=
        if isDealer ∧ allOthersPassed ∧ a.BidAmount = 0 then 2 else a.BidAmount
      let bids' := s.Bids ++ [{ PlayerIndex := a.PlayerIndex, Amount := amount }]
      if bids'.length = 4 then
        let hw := bidWinnerOf bids' s.Dealer
        ({ s with
            Bids := bids', BidWinner := hw.2, WinningBid := hw.1,
            CurrentPlayer := hw.2, Phase := .kitty }, none)
      else
        ({ s with Bids := bids', CurrentPlayer := NextPlayer s.CurrentPlayer }, none)

/-- The suit-name switch of `applySelectTrump` (game/engine.go). -/
def parseTrumpSuit (name : String) : Option Suit :=
  if name = "spades" then some .spades
  else if name = "hearts" then some .hearts
  else if name = "diamonds" then some .diamonds
  else if name = "clubs" then some .clubs
  else none

/-- `applySelectTrump` from game/engine.go. -/
def applySelectTrump (s : GameState) (a : Action) : GameState × Option Err :=
  if s.Phase ≠ .kitty then (s, some .invalidAction)
  else if a.PlayerIndex ≠ s.BidWinner then (s, some .notYourTurn)
  else match parseTrumpSuit a.TrumpSuit with
    | none => (s, some .invalidTrump)
    | some trump => ({ s with Trump := some trump }, none)

/-- `applyTakeKitty` from game/engine.go: moves the named kitty cards into
the bid winner's hand, then clears whatever is left of the kitty. -/
def applyTakeKitty (s : GameState) (a : Action) : GameState × Option Err :=
  if s.Phase ≠ .kitty then (s, some .invalidAction)
  else if a.PlayerIndex ≠ s.BidWinner then (s, some .notYourTurn)
  else match s.playerAt a.PlayerIndex with
    | none => (s, some .panicNilDeref)
    | some p =>
        let r := takeKittyLoop a.CardIDs s.Kitty p.Hand
        match r.2.2 with
        | some e => (setHandAt { s with Kitty := r.1 } a.PlayerIndex r.2.1, some e)
        | none => (setHandAt { s with Kitty := [] } a.PlayerIndex r.2.1, none)

/-- `processDiscard` from game/engine.go: remove the named cards, draw that
many replacements (if a deck remains), mark the seat complete and clear its
pending selection. -/
def processDiscard (s : GameState) (playerIndex : Int) (cardIDs : List String) :
    GameState × Option Err :=
  match s.playerAt playerIndex with
  | none => (s, some .panicNilDeref)
  | some p =>
      let discardCount := cardIDs.length
      let r := removeCardsLoop cardIDs p.Hand
      match r.2 with
      | some e => (setHandAt s playerIndex r.1, some e)
      | none =>
          let hd :=
            if discardCount > 0 then
              match s.Deck with
              | none => (r.1, s.Deck)
              | some d =>
                  let dealt := Deal d discardCount
                  (r.1 ++ dealt.1, some dealt.2)
            else (r.1, s.Deck)
          let s1 := setHandAt { s with Deck := hd.2 } playerIndex hd.1
          ({ s1 with
              DiscardComplete := s1.DiscardComplete.set playerIndex.toNat true,
              PendingDiscards := s1.PendingDiscards.set playerIndex.toNat none }, none)

/-- Result of one run of the inner 4-seat scan of `processPendingDiscards`
(game/engine.go): the function returns (`ret`), a pending discard was
processed and the outer loop continues (`proc`), or all four seats were
complete (`allDone`). -/
inductive ScanResult where
  | ret (s : GameState)
  | proc (s : GameState)
  | allDone
deriving Repr

/-- The inner `for i := 0; i < 4; i++` scan of `processPendingDiscards`
(game/engine.go), walking seats from `np` in turn order. -/
def innerScan : Nat → Int → GameState → ScanResult
  | 0, _, _ => .allDone
  | k + 1, np, s =>
      if ¬(s.DiscardComplete.getD np.toNat false) then
        let s1 := { s with CurrentPlayer := np }
        match s1.PendingDiscards.getD np.toNat none with
        | some pendingIDs =>
            let r := processDiscard s1 np pendingIDs
            match r.2 with
            | some _ =>
                .ret { r.1 with
                  PendingDiscards := r.1.PendingDiscards.set np.toNat none }
            | none => .proc r.1
        | none => .ret s1
      else innerScan k (NextPlayer np) s

/-- The transition taken by `processPendingDiscards` once all four seats have
completed their discard: enter `playing` with the bid winner to act and a
fresh empty trick led by the bid winner. -/
def allDiscardedTransition (s : GameState) : GameState :=
  { s with
    Phase := .playing, CurrentPlayer := s.BidWinner,
    CurrentTrick := some
      { Cards := [], Leader := s.BidWinner, LeadSuit := .spades, Winner := 0 } }

/-- The unbounded outer `for` loop of `processPendingDiscards`
(game/engine.go), with explicit fuel; `none` means the fuel ran out (the
termination theorem shows fuel 5 never does). -/
def pendingLoop : Nat → GameState → Option GameState
  | 0, _ => none
  | fuel + 1, s =>
      match innerScan 4 (NextPlayer s.CurrentPlayer) s with
      | .ret s' => some s'
      | .proc s' => pendingLoop fuel s'
      | .allDone => some (allDiscardedTransition s)

/-- `processPendingDiscards` from game/engine.go. -/
def processPendingDiscards (s : GameState) : GameState :=
  (pendingLoop 5 s).getD s

/-- `applyDiscard` from game/engine.go: the bid winner's end-of-kitty
discard, then entry into the `discard` phase. -/
def applyDiscard (s : GameState) (a : Action) : GameState × Option Err :=
  if s.Phase ≠ .kitty then (s, some .invalidAction)
  else if a.PlayerIndex ≠ s.BidWinner then (s, some .notYourTurn)
  else if s.Trump = none then (s, some .mustSelectTrumpFirst)
  else if s.Kitty.length > 0 then (s, some .mustTakeKittyFirst)
  else match s.playerAt a.PlayerIndex with
    | none => (s, some .panicNilDeref)
    | some p =>
        let r := removeCardsLoop a.CardIDs p.Hand
        match r.2 with
        | some e => (setHandAt s a.PlayerIndex r.1, some e)
        | none =>
            if r.1.length > 6 then (setHandAt s a.PlayerIndex r.1, some .mustDiscardToSix)
            else
              let hd :=
                if r.1.length < 6 then
                  match s.Deck with
                  | none => (r.1, s.Deck)
                  | some d =>
                      let dealt := Deal d (6 - r.1.length)
                      (r.1 ++ dealt.1, some dealt.2)
                else (r.1, s.Deck)
              let s1 := setHandAt { s with Deck := hd.2 } a.PlayerIndex hd.1
              let s2 := { s1 with
                Kitty := [],
                Phase := .discard,
                CurrentPlayer := s1.PlayerAfterDealer,
                DiscardComplete :=
                  ([false, false, false, false] : List Bool).set s.BidWinner.toNat true,
                PendingDiscards := [none, none, none, none] }
              if s2.CurrentPlayer = s2.BidWinner then (processPendingDiscards s2, none)
              else (s2, none)

/-- `applyDiscardDraw` from game/engine.go: out-of-turn submissions are
buffered as a pending selection; in-turn submissions are processed and the
pending chain advanced. -/
def applyDiscardDraw (s : GameState) (a : Action) : GameState × Option Err :=
  if s.Phase ≠ .discard then (s, some .invalidAction)
  else if s.DiscardComplete.getD a.PlayerIndex.toNat false then
    (s, some .alreadyDiscarded)
  else if a.PlayerIndex ≠ s.CurrentPlayer then
    ({ s with PendingDiscards :=
        s.PendingDiscards.set a.PlayerIndex.toNat (some a.CardIDs) }, none)
  else
    let r := processDiscard s a.PlayerIndex a.CardIDs
    match r.2 with
    | some e => (r.1, some e)
    | none => (processPendingDiscards r.1, none)

/-- `determineTrickWinner` from game/engine.go. -/
def determineTrickWinner (trick : Trick) (trump : Suit) : Int :=
  match trick.Cards with
  | [] => trick.Leader
  | first :: rest =>
      let acc := rest.foldl
        (fun (acc : Card × Int) tc =>
          if tc.Card.Beats acc.1 trump trick.LeadSuit then (tc.Card, tc.PlayerIndex)
          else acc)
        (first.Card, first.PlayerIndex)
      acc.2

/-- `applyPlayCard` from game/engine.go: card must be held; the first card of
a trick sets the lead suit (trump when the card is trump, covering the
off-jack); follow-suit is enforced against the player's whole hand; a
completed trick is archived, credited, and its winner leads on — the sixth
trick moves the phase to scoring. -/
def applyPlayCard (s : GameState) (a : Action) : GameState × Option Err :=
  if s.Phase ≠ .playing then (s, some .invalidAction)
  else if a.PlayerIndex ≠ s.CurrentPlayer then (s, some .notYourTurn)
  else match s.playerAt a.PlayerIndex with
    | none => (s, some .panicNilDeref)
    | some p =>
        match removeFirstByID p.Hand a.CardID with
        | none => (s, some .cardNotInHand)
        | some (playedCard, restHand) =>
            match s.Trump, s.CurrentTrick with
            | none, _ => (s, some .panicNilDeref)
            | some _, none => (s, some .panicNilDeref)
            | some trump, some trick0 =>
                let playedIsTrump := playedCard.IsTrump trump
                let trick1 :=
                  if trick0.Cards = [] then
                    { trick0 with LeadSuit :=
                        if playedIsTrump then trump else playedCard.Suit }
                  else trick0
                let leadSuit := trick1.LeadSuit
                let trumpLed := leadSuit = trump
                let hasLeadSuit :=
                  if trumpLed then p.Hand.any (fun c => c.IsTrump trump)
                  else p.Hand.any (fun c => c.Suit = leadSuit ∧ ¬c.IsTrump trump)
                if trick0.Cards ≠ [] ∧
                    (if trumpLed then ¬playedIsTrump ∧ hasLeadSuit
                     else hasLeadSuit ∧
                       (playedCard.Suit ≠ leadSuit ∨ playedIsTrump)) then
                  (s, some .mustFollowSuit)
                else
                  let trick2 := { trick1 with Cards := trick1.Cards ++
                    [{ Card := playedCard, PlayerIndex := a.PlayerIndex }] }
                  let s1 := setHandAt { s with CurrentTrick := some trick2 }
                    a.PlayerIndex restHand
                  if trick2.Cards.length = 4 then
                    let winner := determineTrickWinner trick2 trump
                    let trick3 := { trick2 with Winner := winner }
                    let tricksPlayed' := s1.TricksPlayed + 1
                    let completed : CompletedTrick :=
                      { Cards := trick3.Cards, Winner := winner }
                    let winningTeam := GetTeamForPlayer winner
                    let wonCards := trick3.Cards.map (·.Card)
                    let cardsWon' :=
                      if winningTeam = 0 then (s1.CardsWon.1 ++ wonCards, s1.CardsWon.2)
                      else (s1.CardsWon.1, s1.CardsWon.2 ++ wonCards)
                    let s2 := { s1 with
                      CurrentTrick := some trick3,
                      TricksPlayed := tricksPlayed',
                      CompletedTricks := s1.CompletedTricks ++ [completed],
                      CardsWon := cardsWon',
                      LastTrick := some trick3 }
                    if tricksPlayed' = 6 then ({ s2 with Phase := .scoring }, none)
                    else
                      ({ s2 with
                          CurrentTrick := some
                            { Cards := [], Leader := winner,
                              LeadSuit := .spades, Winner := 0 },
                          CurrentPlayer := winner }, none)
                  else ({ s1 with CurrentPlayer := NextPlayer s.CurrentPlayer }, none)

/-- `applyResetGame` from game/engine.go: house-only; back to a fresh lobby
preserving players, games-won counters and house; hands cleared; dealer set
to the house. -/
def applyResetGame (s : GameState) (a : Action) : GameState × Option Err :=
  if a.PlayerIndex ≠ s.House then (s, some .onlyHouseReset)
  else
    let base := NewGameState s.TargetScore
    let s1 := { base with
      Players := s.Players.map (fun op => op.map (fun p => { p with Hand := [] })),
      Teams := ({ base.Teams.1 with GamesWon := s.Teams.1.GamesWon },
                { base.Teams.2 with GamesWon := s.Teams.2.GamesWon }),
      House := s.House,
      Dealer := s.House }
    (s1, none)

/-- `ApplyAction` from game/engine.go: dispatch on the action type. -/
def ApplyAction (env : ActEnv) (s : GameState) (a : Action) :
    GameState × Option Err :=
  match a.Kind with
  | .joinSeat => applyJoinSeat env s a
  | .leaveSeat => applyLeaveSeat s a
  | .changeName => applyChangeName s a
  | .kickPlayer => applyKickPlayer s a
  | .transferHouse => applyTransferHouse s a
  | .startGame => applyStartGame env s a
  | .placeBid => applyPlaceBid s a
  | .selectTrump => applySelectTrump s a
  | .takeKitty => applyTakeKitty s a
  | .discard => applyDiscard s a
  | .discardDraw => applyDiscardDraw s a
  | .playCard => applyPlayCard s a
  | .resetGame => applyResetGame s a

/-- `StartNewHand` from game/engine.go: rotate the dealer, re-deal 6+6+kitty
from a fresh shuffled deck, clear all per-hand tracking, back to bidding. -/
def StartNewHand (shuffled : List Card) (s : GameState) : GameState :=
  let s0 := { s with Dealer := NextPlayer s.Dealer }
  let r0 := Deal shuffled 6
  let r1 := Deal r0.2 6
  let r2 := Deal r1.2 6
  let r3 := Deal r2.2 6
  let rk := Deal r3.2 6
  let s1 := setHandAt (setHandAt (setHandAt (setHandAt s0 0 r0.1) 1 r1.1) 2 r2.1) 3 r3.1
  { s1 with
    Deck := some rk.2,
    Kitty := rk.1,
    Phase := .bidding,
    CurrentPlayer := s1.PlayerAfterDealer,
    Bids := [],
    Trump := none,
    CurrentTrick := none,
    LastTrick := none,
    TricksPlayed := 0,
    CompletedTricks := [],
    CardsWon := ([], []),
    BidWinner := -1,
    WinningBid := 0,
    DiscardComplete := [false, false, false, false],
    PendingDiscards := [none, none, none, none],
    TrumpBroken := false }

/-- `PublicPlayer` from server/protocol.go. -/
structure PublicPlayer where
  Name : String
  SeatIndex : Int
  Connected : Bool
  CardCount : Nat
  HasBid : Bool
  DiscardReady : Bool
  DiscardComplete : Bool
deriving DecidableEq, Repr

/-- `TeamState` from server/protocol.go. -/
structure TeamState where
  PlayerIndices : List Int
  Score : Int
  GamesWon : Int
deriving DecidableEq, Repr

/-- `TrickCardState` from server/protocol.go. -/
structure TrickCardState where
  Card : Card
  PlayerIndex : Int
deriving DecidableEq, Repr

/-- `TrickState` from server/protocol.go. -/
structure TrickState where
  Cards : List TrickCardState
  Leader : Int
  LeadSuit : String
  Winner : Int
deriving DecidableEq, Repr

/-- `PublicState` from server/protocol.go: the view broadcast to every
recipient. -/
structure PublicState where
  Phase : Phase
  Players : List PublicPlayer
  Teams : TeamState × TeamState
  CurrentTrick : Option TrickState
  LastTrick : Option TrickState
  Trump : Option String
  Bids : List Bid
  Dealer : Int
  CurrentPlayer : Int
  TricksPlayed : Nat
  BidWinner : Int
  WinningBid : Int
  TargetScore : Int
  KittyCount : Nat
  House : Int
  TrumpBroken : Bool
deriving DecidableEq, Repr

/-- The trick-to-view conversion inside `BuildPublicState`
(server/protocol.go). -/
def trickStateOf (t : Trick) : TrickState where
  Cards := t.Cards.map (fun tc => { Card := tc.Card, PlayerIndex := tc.PlayerIndex })
  Leader := t.Leader
  LeadSuit := suitString t.LeadSuit
  Winner := t.Winner

/-- The per-seat view inside `BuildPublicState` (server/protocol.go): an
unoccupied seat shows only its index, an occupied one its public info. -/
def publicPlayerOf (s : GameState) (i : Nat) (p : Option Player) : PublicPlayer :=
  match p with
  | none =>
      { Name := "", SeatIndex := (i : Int), Connected := false, CardCount := 0,
        HasBid := false, DiscardReady := false, DiscardComplete := false }
  | some p =>
      { Name := p.Name, SeatIndex := p.SeatIndex, Connected := p.Connected,
        CardCount := p.Hand.length,
        HasBid := s.Bids.any (fun b => b.PlayerIndex = (i : Int)),
        DiscardReady := (s.PendingDiscards.getD i none).isSome,
        DiscardComplete := s.DiscardComplete.getD i false }

/-- `BuildPublicState` from server/protocol.go. -/
def BuildPublicState (gs : GameState) : PublicState where
  Phase := gs.Phase
  Players := gs.Players.enum.map (fun ip => publicPlayerOf gs ip.1 ip.2)
  Teams :=
    ({ PlayerIndices := gs.Teams.1.PlayerIndices, Score := gs.Teams.1.Score,
       GamesWon := gs.Teams.1.GamesWon },
     { PlayerIndices := gs.Teams.2.PlayerIndices, Score := gs.Teams.2.Score,
       GamesWon := gs.Teams.2.GamesWon })
  CurrentTrick := gs.CurrentTrick.map trickStateOf
  LastTrick := gs.LastTrick.map trickStateOf
  Trump := gs.Trump.map suitString
  Bids := gs.Bids
  Dealer := gs.Dealer
  CurrentPlayer := gs.CurrentPlayer
  TricksPlayed := gs.TricksPlayed
  BidWinner := gs.BidWinner
  WinningBid := gs.WinningBid
  TargetScore := gs.TargetScore
  KittyCount := gs.Kitty.length
  House := gs.House
  TrumpBroken := gs.TrumpBroken

/-- `handleScoring` from server/handlers.go: score the completed hand, apply
the deltas, and on game over move to `finished` and increment the winning
team's games-won counter. -/
def scoringStep (s : GameState) : GameState :=
  let result := CalculateScore s
  let s1 := ApplyScore s result
  let go := CheckGameOver s1
  if go.1 then
    let s2 := { s1 with Phase := .finished }
    if go.2 = 0 then
      { s2 with Teams :=
          ({ s2.Teams.1 with GamesWon := s2.Teams.1.GamesWon + 1 }, s2.Teams.2) }
    else
      { s2 with Teams :=
          (s2.Teams.1, { s2.Teams.2 with GamesWon := s2.Teams.2.GamesWon + 1 }) }
  else s1

/-- The `finished` branch of `handleNewHand` (server/handlers.go): a fresh
lobby preserving games-won; the re-seated players come from the hub (passed
in as a parameter here). -/
def finishedNewHandReset (s : GameState) (reseated : List (Option Player)) :
    GameState :=
  let base := NewGameState s.TargetScore
  { base with
    Teams := ({ base.Teams.1 with GamesWon := s.Teams.1.GamesWon },
              { base.Teams.2 with GamesWon := s.Teams.2.GamesWon }),
    Players := reseated }

/-- The mid-game seat takeover in `handleJoinTable` (server/handlers.go). -/
def seatTakeover (s : GameState) (i : Int) (name token : String) : GameState :=
  match s.playerAt i with
  | none => s
  | some p =>
      s.setPlayer i (some
        { p with Name := name, Connected := true, SessionToken := token })

/-- The seat re-attachment in `handleRejoin` (server/handlers.go). -/
def rejoinStep (s : GameState) (i : Int) : GameState :=
  match s.playerAt i with
  | none => s
  | some p => s.setPlayer i (some { p with Connected := true })

/-- `HandleDisconnect` (server/handlers.go): mark the seat disconnected. -/
def disconnectStep (s : GameState) (i : Int) : GameState :=
  match s.playerAt i with
  | none => s
  | some p => s.setPlayer i (some { p with Connected := false })

/-- The game states the server can ever hold: a fresh `NewGameState` evolved
by engine actions (successful or not — Go mutates in place either way), hand
scoring, new hands, the post-game lobby reset, and the player-field updates
the handlers perform directly. -/
inductive Reachable : GameState → Prop where
  | init (targetScore : Int) : Reachable (NewGameState targetScore)
  | step (env : ActEnv) (a : Action) {s : GameState} :
      Reachable s → Reachable (ApplyAction env s a).1
  | newHand (shuffled : List Card) {s : GameState} :
      Reachable s → Reachable (StartNewHand shuffled s)
  | score {s : GameState} : Reachable s → Reachable (scoringStep s)
  | finReset (reseated : List (Option Player)) {s : GameState} :
      Reachable s → Reachable (finishedNewHandReset s reseated)
  | takeover (i : Int) (name token : String) {s : GameState} :
      Reachable s → Reachable (seatTakeover s i name token)
  | rejoin (i : Int) {s : GameState} :
      Reachable s → Reachable (rejoinStep s i)
  | disconnect (i : Int) {s : GameState} :
      Reachable s → Reachable (disconnectStep s i)

/-- The multiset of cards held across all four hands. -/
def handsCards (players : List (Option Player)) : Multiset Card :=
  (players.map (fun op => match op with
    | none => (0 : Multiset Card)
    | some p => (p.Hand : Multiset Card))).sum

/-- The multiset of cards lying in a (possibly absent) trick. -/
def trickCardsM : Option Trick → Multiset Card
  | none => 0
  | some t => ((t.Cards.map (fun tc => tc.Card)) : Multiset Card)

/-- The multiset of cards archived in the completed tricks of this hand. -/
def completedCardsM (tricks : List CompletedTrick) : Multiset Card :=
  ((tricks.flatMap (fun t => t.Cards.map (fun tc => tc.Card))) : Multiset Card)

/-- All card identities tracked by a game state during a hand: deck, the four
hands, the kitty, the current trick and the completed tricks (the collections
named by the conservation property). -/
def trackedCards (s : GameState) : Multiset Card :=
  ((s.Deck.getD []) : Multiset Card) + handsCards s.Players
    + (s.Kitty : Multiset Card) + trickCardsM s.CurrentTrick
    + completedCardsM s.CompletedTricks

/-- The full 52-card deck as a multiset. -/
def fullDeckCards : Multiset Card := (NewDeck : Multiset Card)

/-- An action with every payload field at its Go zero value (handlers build
actions this way, setting only the fields the message carries). -/
def defaultAction : Action :=
  { Kind := .joinSeat, PlayerIndex := 0, PlayerName := "", BidAmount := 0,
    CardID := "", TrumpSuit := "", CardIDs := [], TargetSeat := 0 }

/-- Spec-side reading of a team's earned total: the count of the five
categories (High, Low, Jack, Off-Jack, Game) awarded to it. -/
def categoryCount (team : Int) (r : ScoreResult) : Int :=
  (if r.HighTeam = team then 1 else 0) + (if r.LowTeam = team then 1 else 0)
    + (if r.JackTeam = team then 1 else 0) + (if r.OffJackTeam = team then 1 else 0)
    + (if r.GameTeam = team then 1 else 0)

/-- Number of buffered pending-discard selections among the four seats (the
measure that shrinks on every continuing pass of `processPendingDiscards`). -/
def pendingCount4 (l : List (Option (List String))) : Nat :=
  (l.getD 0 none).isSome.toNat + (l.getD 1 none).isSome.toNat
    + (l.getD 2 none).isSome.toNat + (l.getD 3 none).isSome.toNat

/-- A completed-hand state for exercising the scoring theorem: trump chosen,
seat 1 won the bid at 4, no points earned by anyone. -/
def wState3 : GameState :=
  { NewGameState 52 with Trump := some Suit.spades, WinningBid := 4, BidWinner := 1 }

/-- A fixed environment for concrete runs: the unshuffled deck and a dummy
session token. -/
def wEnv : ActEnv := { shuffled := NewDeck, token := "tok" }

/-- A bidding state in which seats 1, 2 and 3 have passed and the dealer
(seat 0) is to act. -/
def wState6 : GameState :=
  { NewGameState 52 with
    Phase := .bidding,
    Dealer := 0,
    CurrentPlayer := 0,
    Bids := [{ PlayerIndex := 1, Amount := 0 }, { PlayerIndex := 2, Amount := 0 },
             { PlayerIndex := 3, Amount := 0 }] }

/-- The dealer's pass in that state. -/
def wAct6 : Action := { defaultAction with Kind := .placeBid, PlayerIndex := 0, BidAmount := 0 }

/-- A seated player with an empty hand. -/
def wPlayer (i : Int) (nm : String) : Player :=
  { Name := nm, SeatIndex := i, Hand := [], SessionToken := "", Connected := true }

/-- A full lobby with seat 0 as house and dealer. -/
def wState7 : GameState :=
  { NewGameState 52 with
    Players := [some (wPlayer 0 "a"), some (wPlayer 1 "b"),
                some (wPlayer 2 "c"), some (wPlayer 3 "d")],
    House := 0,
    Dealer := 0 }

/-- The house's start-game request. -/
def wAct7 : Action := { defaultAction with Kind := .startGame, PlayerIndex := 0 }

/-- A discard-phase state in which every seat has already completed its
discard-and-draw. -/
def wState10 : GameState :=
  { NewGameState 52 with
    Phase := .discard,
    BidWinner := 3,
    CurrentPlayer := 1,
    DiscardComplete := [true, true, true, true] }

/-- Concrete cards for the follow-suit scenarios. -/
def wCardH10 : Card := NewCard .hearts 10

def wCardC5 : Card := NewCard .clubs 5

def wCardD9 : Card := NewCard .diamonds 9

def wCardC7 : Card := NewCard .clubs 7

/-- Seat 2 holding a heart (trump), a club and a diamond. -/
def wPlayer4 : Player :=
  { Name := "x", SeatIndex := 2, Hand := [wCardH10, wCardC5, wCardD9],
    SessionToken := "", Connected := true }

/-- A trick led with the 7 of clubs. -/
def wTrick4 : Trick :=
  { Cards := [{ Card := wCardC7, PlayerIndex := 1 }], Leader := 1,
    LeadSuit := .clubs, Winner := 0 }

/-- A playing-phase state, trump hearts, clubs led, seat 2 to act. -/
def wState4 : GameState :=
  { NewGameState 52 with
    Phase := .playing,
    CurrentPlayer := 2,
    Trump := some .hearts,
    Players := [none, none, some wPlayer4, none],
    CurrentTrick := some wTrick4 }

/-- Seat 2 trying to play the 9 of diamonds while holding a club. -/
def wAct4 : Action :=
  { defaultAction with Kind := .playCard, PlayerIndex := 2, CardID := "9_diamonds" }

/-- The jack of clubs (the off-jack when trump is spades). -/
def wCardJC : Card := NewCard .clubs 11

/-- A completed trick in which seat 0 played the jack of clubs and seat 1
won the trick. -/
def wTrick5 : CompletedTrick :=
  { Cards := [{ Card := wCardJC, PlayerIndex := 0 }], Winner := 1 }

/-- A hand with trump spades whose only completed trick contains the
off-jack, captured by seat 1. -/
def wState5 : GameState :=
  { NewGameState 52 with Trump := some .spades, CompletedTricks := [wTrick5] }

/-- A join-seat action for seat `i` under name `nm`. -/
def joinAct (i : Int) (nm : String) : Action :=
  { defaultAction with
    Kind := .joinSeat
    PlayerIndex := i
    PlayerName := nm }

/-- A place-bid action by seat `i` of amount `amt`. -/
def bidAct (i : Int) (amt : Int) : Action :=
  { defaultAction with
    Kind := .placeBid
    PlayerIndex := i
    BidAmount := amt }

/-- The start-game action issued by the house (seat 0 below). -/
def startAct : Action := { defaultAction with Kind := .startGame, PlayerIndex := 0 }

/-- Seat 1 selects spades as trump. -/
def trumpAct : Action :=
  { defaultAction with
    Kind := .selectTrump
    PlayerIndex := 1
    TrumpSuit := "spades" }

/-- Seat 1 takes none of the kitty cards. -/
def kittyAct : Action :=
  { defaultAction with
    Kind := .takeKitty
    PlayerIndex := 1
    CardIDs := [] }

/-- A concrete game: four players join, the house starts the game, seat 1
wins the bidding at 2, selects spades, and takes no kitty cards. -/
def c2s1 : GameState := (ApplyAction wEnv (NewGameState 52) (joinAct 0 "a")).1

def c2s2 : GameState := (ApplyAction wEnv c2s1 (joinAct 1 "b")).1

def c2s3 : GameState := (ApplyAction wEnv c2s2 (joinAct 2 "c")).1

def c2s4 : GameState := (ApplyAction wEnv c2s3 (joinAct 3 "d")).1

def c2s5 : GameState := (ApplyAction wEnv c2s4 startAct).1

def c2s6 : GameState := (ApplyAction wEnv c2s5 (bidAct 1 2)).1

def c2s7 : GameState := (ApplyAction wEnv c2s6 (bidAct 2 0)).1

def c2s8 : GameState := (ApplyAction wEnv c2s7 (bidAct 3 0)).1

def c2s9 : GameState := (ApplyAction wEnv c2s8 (bidAct 0 0)).1

def c2s10 : GameState := (ApplyAction wEnv c2s9 trumpAct).1

def c2s11 : GameState := (ApplyAction wEnv c2s10 kittyAct).1

/-- A kitty-phase state where seat 1 has won the bid and the kitty holds the
two of spades. -/
def cexPlayer1 : Player :=
  { Name := "b", SeatIndex := 1, Hand := [], SessionToken := "", Connected := true }

def cexState1 : GameState :=
  { NewGameState 52 with
    Phase := .kitty
    BidWinner := 1
    Players := [none, some cexPlayer1, none, none]
    Kitty := [NewCard .spades 2] }

/-- Seat 1 tries to take the two of spades and a card id that is not in the
kitty. -/
def cexAct1 : Action :=
  { defaultAction with
    Kind := .takeKitty
    PlayerIndex := 1
    CardIDs := ["2_spades", "nope"] }

end Setback

namespace Setback

/-! ### Helper lemmas -/

lemma offSuit_ne_self (s : Suit) : s.OffSuit ≠ s := by
  cases s <;> simp [Suit.OffSuit]

/-- C8: `Beats(a, b, trump, lead)` is: true when only `a` is trump; false
when only `b` is trump; for two trumps, comparison of the trump-order keys,
where the off-jack's key lies strictly between the trump jack's and the
trump ten's; for two non-trumps of one suit, rank comparison; for two
non-trumps of different suits, whether `a` matches the lead suit. -/
theorem claim8_beats_spec (a b : Card) (trump leadSuit : Suit) :
    (a.IsTrump trump = true ∧ b.IsTrump trump = false →
        a.Beats b trump leadSuit = true)
  ∧ (a.IsTrump trump = false ∧ b.IsTrump trump = true →
        a.Beats b trump leadSuit = false)
  ∧ (a.IsTrump trump = true ∧ b.IsTrump trump = true →
        (a.Beats b trump leadSuit = true ↔ a.TrumpRank trump > b.TrumpRank trump))
  ∧ (a.IsTrump trump = false ∧ b.IsTrump trump = false ∧ a.Suit = b.Suit →
        (a.Beats b trump leadSuit = true ↔ a.Rank > b.Rank))
  ∧ (a.IsTrump trump = false ∧ b.IsTrump trump = false ∧ a.Suit ≠ b.Suit →
        (a.Beats b trump leadSuit = true ↔ a.Suit = leadSuit))
  ∧ ((NewCard trump 11).TrumpRank trump > (NewCard trump.OffSuit 11).TrumpRank trump
      ∧ (NewCard trump.OffSuit 11).TrumpRank trump > (NewCard trump 10).TrumpRank trump) := by
  have hne : trump ≠ trump.OffSuit := (offSuit_ne_self trump).symm
  refine ⟨?_, ?_, ?_, ?_, ?_, ?_, ?_⟩
  · rintro ⟨ha, hb⟩
    simp [Card.Beats, ha, hb]
  · rintro ⟨ha, hb⟩
    simp [Card.Beats, ha, hb]
  · rintro ⟨ha, hb⟩
    simp [Card.Beats, ha, hb]
  · rintro ⟨ha, hb, hs⟩
    simp [Card.Beats, ha, hb, hs]
  · rintro ⟨ha, hb, hs⟩
    simp [Card.Beats, ha, hb, hs]
  · simp [Card.TrumpRank, Card.IsOffJack, NewCard, hne]
    norm_num
  · simp [Card.TrumpRank, Card.IsOffJack, NewCard, hne]
    norm_num

end Setback

namespace Setback

/-- Witness for C8 at concrete cards: the ace of trump beats an off-suit
five, and the off-jack (jack of clubs, trump spades) beats the ten of
trump. -/
theorem claim8_beats_spec_witness :
    (NewCard .spades 14).Beats (NewCard .hearts 5) .spades .hearts = true
  ∧ (NewCard .clubs 11).Beats (NewCard .spades 10) .spades .hearts = true := by
  constructor
  · exact (claim8_beats_spec (NewCard .spades 14) (NewCard .hearts 5)
      .spades .hearts).1 ⟨by decide, by decide⟩
  · exact ((claim8_beats_spec (NewCard .clubs 11) (NewCard .spades 10)
      .spades .hearts).2.2.1 ⟨by decide, by decide⟩).mpr
      (by norm_num [Card.TrumpRank, Card.IsOffJack, NewCard, Suit.OffSuit])

end Setback

namespace Setback

lemma awardTo_fst (t : Int) (p : Int × Int) :
    (awardTo t p).1 = p.1 + (if t = 0 then 1 else 0) := by
  simp only [awardTo]
  split
  · simp_all
  · split <;> simp_all

lemma awardTo_snd (t : Int) (p : Int × Int) :
    (awardTo t p).2 = p.2 + (if t = 1 then 1 else 0) := by
  simp only [awardTo]
  split
  · rename_i h0
    simp [h0]
  · split <;> simp_all

/-- C3: with trump selected, each team's hand total is the count of the five
categories awarded to it; the bid is made exactly when the bidding team's
total reaches the winning bid, in which case each team's change is its own
total; otherwise the bidding team's change is minus the bid amount and the
other team's change is its own total; applying the result adds each change
to the cumulative score (which can go negative). -/
theorem claim3_scoring (s : GameState) (trump : Suit) (h : s.Trump = some trump) :
    ((CalculateScore s).Team0Points = categoryCount 0 (CalculateScore s)
      ∧ (CalculateScore s).Team1Points = categoryCount 1 (CalculateScore s))
  ∧ ((if (CalculateScore s).BidderTeam = 1 then (CalculateScore s).Team1Points
        else (CalculateScore s).Team0Points) ≥ s.WinningBid →
      (CalculateScore s).Team0Change = (CalculateScore s).Team0Points
      ∧ (CalculateScore s).Team1Change = (CalculateScore s).Team1Points)
  ∧ ((if (CalculateScore s).BidderTeam = 1 then (CalculateScore s).Team1Points
        else (CalculateScore s).Team0Points) < s.WinningBid →
      (if (CalculateScore s).BidderTeam = 0 then
        (CalculateScore s).Team0Change = -s.WinningBid
        ∧ (CalculateScore s).Team1Change = (CalculateScore s).Team1Points
       else
        (CalculateScore s).Team1Change = -s.WinningBid
        ∧ (CalculateScore s).Team0Change = (CalculateScore s).Team0Points))
  ∧ ((ApplyScore s (CalculateScore s)).Teams.1.Score
        = s.Teams.1.Score + (CalculateScore s).Team0Change
      ∧ (ApplyScore s (CalculateScore s)).Teams.2.Score
        = s.Teams.2.Score + (CalculateScore s).Team1Change) := by
  have hbt : GetTeamForPlayer s.BidWinner = 0 ∨ GetTeamForPlayer s.BidWinner = 1 := by
    unfold GetTeamForPlayer
    split <;> simp
  refine ⟨⟨?_, ?_⟩, ?_, ?_, ?_, ?_⟩
  · simp only [CalculateScore, h, categoryCount]
    simp [awardTo_fst, awardTo_snd]
  · simp only [CalculateScore, h, categoryCount]
    simp [awardTo_fst, awardTo_snd]
  · intro hge
    simp only [CalculateScore, h, ge_iff_le] at hge ⊢
    rcases hbt with hb | hb <;> simp only [hb] at hge ⊢ <;> simp_all
  · intro hlt
    simp only [CalculateScore, h] at hlt ⊢
    rcases hbt with hb | hb <;> simp only [hb] at hlt ⊢
    · rw [if_neg (not_le.mpr hlt)]
      exact ⟨rfl, rfl⟩
    · rw [if_neg (not_le.mpr hlt)]
      exact ⟨rfl, rfl⟩
  · simp [ApplyScore]
  · simp [ApplyScore]

end Setback

namespace Setback

/-- Witness for C3: in `wState3` the bidding team (team 1) earned 0 < 4, so
its change is the setback −4 and team 0's change is its own total 0. -/
theorem claim3_scoring_witness :
    (CalculateScore wState3).Team1Change = -4
  ∧ (CalculateScore wState3).Team0Change = 0 := by
  have h := (claim3_scoring wState3 Suit.spades rfl).2.2.1 (by decide)
  rw [if_neg (by decide : ¬(CalculateScore wState3).BidderTeam = 0)] at h
  exact ⟨h.1.trans (by decide), h.2.trans (by decide)⟩

end Setback

namespace Setback

lemma highBidOf_all_pass (bids : List Bid) (h : ∀ b ∈ bids, b.Amount = 0) :
    highBidOf bids = 0 := by
  induction bids with
  | nil => rfl
  | cons b bs ih =>
      have hb : b.Amount = 0 := h b (by simp)
      have ht : ∀ x ∈ bs, x.Amount = 0 := fun x hx => h x (by simp [hx])
      simpa [highBidOf, hb] using ih ht

lemma bidFold_all_pass (bids : List Bid) (acc : Int × Int) (hacc : acc.1 = 0)
    (h : ∀ b ∈ bids, b.Amount = 0) :
    bids.foldl
      (fun (acc : Int × Int) b =>
        if b.Amount > acc.1 then (b.Amount, b.PlayerIndex) else acc) acc = acc := by
  induction bids generalizing acc with
  | nil => rfl
  | cons b bs ih =>
      have hb : b.Amount = 0 := h b (by simp)
      simp only [List.foldl_cons]
      rw [show (if b.Amount > acc.1 then (b.Amount, b.PlayerIndex) else acc) = acc by
        simp [hb, hacc]]
      exact ih acc hacc (fun x hx => h x (by simp [hx]))

/-- C6: in bidding, when three bids are in and all are passes, a pass
submitted by the dealer is recorded as a forced bid of 2; the dealer becomes
bid winner and seat-to-act, the winning bid is 2, the phase moves to kitty,
and the final bid list is not four passes. -/
theorem claim6_dealer_forced (env : ActEnv) (s : GameState) (a : Action)
    (hkind : a.Kind = .placeBid)
    (hphase : s.Phase = .bidding)
    (hturn : a.PlayerIndex = s.CurrentPlayer)
    (hdeal : a.PlayerIndex = s.Dealer)
    (hlen : s.Bids.length = 3)
    (hpass : ∀ b ∈ s.Bids, b.Amount = 0)
    (hamt : a.BidAmount = 0) :
    ApplyAction env s a =
      ({ s with
          Bids := s.Bids ++ [{ PlayerIndex := a.PlayerIndex, Amount := 2 }],
          BidWinner := s.Dealer, WinningBid := 2, CurrentPlayer := s.Dealer,
          Phase := .kitty }, none)
  ∧ ∃ b ∈ (ApplyAction env s a).1.Bids, b.Amount ≠ 0 := by
  have hhb := highBidOf_all_pass s.Bids hpass
  have hw : bidWinnerOf (s.Bids ++ [{ PlayerIndex := a.PlayerIndex, Amount := 2 }])
      s.Dealer = (2, a.PlayerIndex) := by
    unfold bidWinnerOf
    rw [List.foldl_append, bidFold_all_pass s.Bids (0, s.Dealer) rfl hpass]
    simp
  have hcd : s.CurrentPlayer = s.Dealer := hturn ▸ hdeal
  rw [hdeal] at hw
  have hmain : ApplyAction env s a =
      ({ s with
          Bids := s.Bids ++ [{ PlayerIndex := a.PlayerIndex, Amount := 2 }],
          BidWinner := s.Dealer, WinningBid := 2, CurrentPlayer := s.Dealer,
          Phase := .kitty }, none) := by
    simp only [ApplyAction, hkind, applyPlaceBid, hphase, hamt, hhb, hturn, hcd, hlen]
    simp [hw, hcd, hlen]
  refine ⟨hmain, ⟨{ PlayerIndex := a.PlayerIndex, Amount := 2 }, ?_, ?_⟩⟩
  · simp [hmain]
  · simp

end Setback

namespace Setback

/-- Witness for C6: in the concrete all-pass state the dealer's pass is
recorded as 2 and the phase advances to kitty with the dealer as winner. -/
theorem claim6_dealer_forced_witness :
    (ApplyAction wEnv wState6 wAct6).1.WinningBid = 2
  ∧ (ApplyAction wEnv wState6 wAct6).1.Phase = Phase.kitty
  ∧ (ApplyAction wEnv wState6 wAct6).1.BidWinner = 0 := by
  have h := (claim6_dealer_forced wEnv wState6 wAct6 rfl rfl rfl rfl (by decide)
    (by decide) rfl).1
  refine ⟨?_, ?_, ?_⟩ <;> rw [h] <;> rfl

end Setback

namespace Setback

lemma exists_four {α : Type _} (l : List α) (h : l.length = 4) :
    ∃ a b c d, l = [a, b, c, d] := by
  rcases l with _ | ⟨a, _ | ⟨b, _ | ⟨c, _ | ⟨d, rest⟩⟩⟩⟩ <;> simp at h
  have : rest = [] := by simpa using h
  subst this
  exact ⟨a, b, c, d, rfl⟩

/-- C7: start-game succeeds exactly when the house requests it in the lobby
with all four seats filled; a failed attempt leaves the record unchanged; a
successful one deals 6 cards to each seat and 6 to the kitty from the
shuffled deck, clears all per-hand tracking, and enters bidding with
seat-to-act left of the dealer. -/
theorem claim7_start_game (env : ActEnv) (s : GameState) (a : Action)
    (hkind : a.Kind = .startGame) :
    ((ApplyAction env s a).2 = none ↔
        s.Phase = .lobby ∧ a.PlayerIndex = s.House ∧ s.AllPlayersSeated = true)
  ∧ ((ApplyAction env s a).2.isSome → (ApplyAction env s a).1 = s)
  ∧ (∀ (hphase : s.Phase = .lobby) (hhouse : a.PlayerIndex = s.House)
        (hseat : s.AllPlayersSeated = true) (hlen : s.Players.length = 4)
        (hperm : env.shuffled.Perm NewDeck),
      (ApplyAction env s a).1.Phase = .bidding
      ∧ (ApplyAction env s a).1.CurrentPlayer = NextPlayer s.Dealer
      ∧ (∀ i : Nat, i < 4 → ∃ p, (ApplyAction env s a).1.Players.getD i none = some p
            ∧ p.Hand = (env.shuffled.drop (6 * i)).take 6 ∧ p.Hand.length = 6)
      ∧ (ApplyAction env s a).1.Kitty = (env.shuffled.drop 24).take 6
      ∧ (ApplyAction env s a).1.Kitty.length = 6
      ∧ (ApplyAction env s a).1.Deck = some (env.shuffled.drop 30)
      ∧ (ApplyAction env s a).1.Bids = []
      ∧ (ApplyAction env s a).1.Trump = none
      ∧ (ApplyAction env s a).1.TricksPlayed = 0
      ∧ (ApplyAction env s a).1.CompletedTricks = []
      ∧ (ApplyAction env s a).1.CardsWon = ([], [])
      ∧ (ApplyAction env s a).1.LastTrick = none
      ∧ (ApplyAction env s a).1.DiscardComplete = [false, false, false, false]
      ∧ (ApplyAction env s a).1.PendingDiscards = [none, none, none, none]
      ∧ (ApplyAction env s a).1.TrumpBroken = false) := by
  refine ⟨?_, ?_, ?_⟩
  · simp only [ApplyAction, hkind, applyStartGame]
    by_cases h1 : s.Phase = .lobby <;> by_cases h2 : a.PlayerIndex = s.House <;>
      by_cases h3 : s.AllPlayersSeated = true <;> simp [h1, h2, h3]
  · simp only [ApplyAction, hkind, applyStartGame]
    by_cases h1 : s.Phase = .lobby <;> by_cases h2 : a.PlayerIndex = s.House <;>
      by_cases h3 : s.AllPlayersSeated = true <;> simp [h1, h2, h3]
  · intro hphase hhouse hseat hlen hperm
    obtain ⟨q0, q1, q2, q3, hP⟩ := exists_four s.Players hlen
    have hall := hseat
    rw [GameState.AllPlayersSeated, hP] at hall
    simp only [List.all_cons, List.all_nil, Bool.and_true, Bool.and_eq_true] at hall
    obtain ⟨p0, h0⟩ := Option.isSome_iff_exists.mp hall.1
    obtain ⟨p1, h1⟩ := Option.isSome_iff_exists.mp hall.2.1
    obtain ⟨p2, h2⟩ := Option.isSome_iff_exists.mp hall.2.2.1
    obtain ⟨p3, h3⟩ := Option.isSome_iff_exists.mp hall.2.2.2
    subst h0 h1 h2 h3
    have hlen52 : env.shuffled.length = 52 := by
      rw [hperm.length_eq]
      rfl
    have hres : ApplyAction env s a =
        ({ s with
            Players := [some { p0 with Hand := env.shuffled.take 6 },
                        some { p1 with Hand := (env.shuffled.drop 6).take 6 },
                        some { p2 with Hand := (env.shuffled.drop 12).take 6 },
                        some { p3 with Hand := (env.shuffled.drop 18).take 6 }],
            Deck := some (env.shuffled.drop 30),
            Kitty := (env.shuffled.drop 24).take 6,
            Phase := .bidding,
            CurrentPlayer := NextPlayer s.Dealer,
            Bids := [],
            Trump := none,
            TricksPlayed := 0,
            CompletedTricks := [],
            CardsWon := ([], []),
            LastTrick := none,
            DiscardComplete := [false, false, false, false],
            PendingDiscards := [none, none, none, none],
            TrumpBroken := false }, none) := by
      simp only [ApplyAction, hkind, applyStartGame, hphase, hhouse, hseat]
      simp [Deal, setHandAt, GameState.playerAt, GameState.setPlayer, hP,
        GameState.PlayerAfterDealer, List.drop_drop]
    refine ⟨by simp [hres], by simp [hres], ?_, by simp [hres], ?_, by simp [hres],
      by simp [hres], by simp [hres], by simp [hres], by simp [hres], by simp [hres],
      by simp [hres], by simp [hres], by simp [hres], by simp [hres]⟩
    · intro i hi
      interval_cases i
      · exact ⟨{ p0 with Hand := env.shuffled.take 6 }, by simp [hres], by simp,
          by simp [List.length_take, List.length_drop, hlen52]⟩
      · exact ⟨{ p1 with Hand := (env.shuffled.drop 6).take 6 }, by simp [hres], by simp,
          by simp [List.length_take, List.length_drop, hlen52]⟩
      · exact ⟨{ p2 with Hand := (env.shuffled.drop 12).take 6 }, by simp [hres], by simp,
          by simp [List.length_take, List.length_drop, hlen52]⟩
      · exact ⟨{ p3 with Hand := (env.shuffled.drop 18).take 6 }, by simp [hres], by simp,
          by simp [List.length_take, List.length_drop, hlen52]⟩
    · simp [hres, List.length_take, List.length_drop, hlen52]

end Setback

namespace Setback

/-- Witness for C7: starting the full lobby deals out the hand and enters
bidding with a 6-card kitty. -/
theorem claim7_start_game_witness :
    (ApplyAction wEnv wState7 wAct7).1.Phase = Phase.bidding
  ∧ (ApplyAction wEnv wState7 wAct7).1.Kitty.length = 6 := by
  have h := (claim7_start_game wEnv wState7 wAct7 rfl).2.2 rfl rfl (by decide)
    (by decide) (List.Perm.refl _)
  exact ⟨h.1, h.2.2.2.2.1⟩

end Setback

namespace Setback

lemma getD_set_self {α : Type _} (l : List α) (i : Nat) (v d : α) (h : i < l.length) :
    (l.set i v).getD i d = v := by
  induction l generalizing i with
  | nil => simp at h
  | cons a t ih =>
      cases i with
      | zero => rfl
      | succ n => simpa using ih n (by simpa using h)

lemma getD_set_ne {α : Type _} (l : List α) (i j : Nat) (v d : α) (h : i ≠ j) :
    (l.set i v).getD j d = l.getD j d := by
  induction l generalizing i j with
  | nil => rfl
  | cons a t ih =>
      cases i with
      | zero =>
          cases j with
          | zero => exact absurd rfl h
          | succ m => rfl
      | succ n =>
          cases j with
          | zero => rfl
          | succ m => simpa using ih n m (fun hh => h (by rw [hh]))

lemma pendingCount4_set_none (l : List (Option (List String))) (i : Nat) (hi : i < 4)
    (hsome : (l.getD i none).isSome = true) :
    pendingCount4 (l.set i none) < pendingCount4 l := by
  have hlen : i < l.length := by
    by_contra hlt
    push_neg at hlt
    rw [List.getD_eq_default _ _ hlt] at hsome
    simp at hsome
  interval_cases i
  · unfold pendingCount4
    rw [getD_set_self l 0 none none hlen, getD_set_ne l 0 1 none none (by omega),
        getD_set_ne l 0 2 none none (by omega), getD_set_ne l 0 3 none none (by omega),
        hsome]
    simp only [Option.isSome_none, Bool.toNat_false, Bool.toNat_true]
    omega
  · unfold pendingCount4
    rw [getD_set_self l 1 none none hlen, getD_set_ne l 1 0 none none (by omega),
        getD_set_ne l 1 2 none none (by omega), getD_set_ne l 1 3 none none (by omega),
        hsome]
    simp only [Option.isSome_none, Bool.toNat_false, Bool.toNat_true]
    omega
  · unfold pendingCount4
    rw [getD_set_self l 2 none none hlen, getD_set_ne l 2 0 none none (by omega),
        getD_set_ne l 2 1 none none (by omega), getD_set_ne l 2 3 none none (by omega),
        hsome]
    simp only [Option.isSome_none, Bool.toNat_false, Bool.toNat_true]
    omega
  · unfold pendingCount4
    rw [getD_set_self l 3 none none hlen, getD_set_ne l 3 0 none none (by omega),
        getD_set_ne l 3 1 none none (by omega), getD_set_ne l 3 2 none none (by omega),
        hsome]
    simp only [Option.isSome_none, Bool.toNat_false, Bool.toNat_true]
    omega

lemma pendingCount4_le (l : List (Option (List String))) : pendingCount4 l ≤ 4 := by
  unfold pendingCount4
  have h0 := Bool.toNat_lt (l.getD 0 none).isSome
  have h1 := Bool.toNat_lt (l.getD 1 none).isSome
  have h2 := Bool.toNat_lt (l.getD 2 none).isSome
  have h3 := Bool.toNat_lt (l.getD 3 none).isSome
  omega

lemma NextPlayer_nonneg (c : Int) : 0 ≤ NextPlayer c :=
  Int.emod_nonneg _ (by norm_num)

lemma NextPlayer_lt_four (c : Int) : NextPlayer c < 4 :=
  Int.emod_lt_of_pos _ (by norm_num)

lemma setHandAt_PendingDiscards (s : GameState) (i : Int) (h : List Card) :
    (setHandAt s i h).PendingDiscards = s.PendingDiscards := by
  unfold setHandAt GameState.setPlayer
  split <;> rfl

lemma setHandAt_DiscardComplete (s : GameState) (i : Int) (h : List Card) :
    (setHandAt s i h).DiscardComplete = s.DiscardComplete := by
  unfold setHandAt GameState.setPlayer
  split <;> rfl

lemma setHandAt_CurrentTrick (s : GameState) (i : Int) (h : List Card) :
    (setHandAt s i h).CurrentTrick = s.CurrentTrick := by
  unfold setHandAt GameState.setPlayer
  split <;> rfl

lemma processDiscard_ok (s : GameState) (i : Int) (ids : List String)
    (h : (processDiscard s i ids).2 = none) :
    (processDiscard s i ids).1.PendingDiscards = s.PendingDiscards.set i.toNat none
    ∧ (processDiscard s i ids).1.DiscardComplete = s.DiscardComplete.set i.toNat true := by
  unfold processDiscard at h ⊢
  cases hp : s.playerAt i with
  | none => simp [hp] at h
  | some p =>
      simp only [hp] at h ⊢
      cases hr : (removeCardsLoop ids p.Hand).2 with
      | some e => simp [hr] at h
      | none =>
          simp only [hr]
          constructor
          · simp [setHandAt_PendingDiscards]
          · simp [setHandAt_DiscardComplete]

lemma innerScan_proc_spec : ∀ (k : Nat) (np : Int) (s s' : GameState),
    0 ≤ np → np < 4 →
    innerScan k np s = .proc s' →
    pendingCount4 s'.PendingDiscards < pendingCount4 s.PendingDiscards
    ∧ ∃ j, j < 4 ∧ s.DiscardComplete.getD j false = false
        ∧ (j < s.DiscardComplete.length → s'.DiscardComplete.getD j false = true) := by
  intro k
  induction k with
  | zero =>
      intro np s s' _ _ h
      simp [innerScan] at h
  | succ n ih =>
      intro np s s' h0 h4 h
      unfold innerScan at h
      by_cases hc : s.DiscardComplete.getD np.toNat false = true
      · rw [if_neg (not_not_intro hc)] at h
        exact ih (NextPlayer np) s s' (NextPlayer_nonneg np) (NextPlayer_lt_four np) h
      · rw [if_pos hc] at h
        simp only [] at h
        cases hpend : s.PendingDiscards.getD np.toNat none with
        | none =>
            rw [hpend] at h
            simp only [] at h
            cases h
        | some ids =>
            rw [hpend] at h
            simp only [] at h
            cases herr : (processDiscard { s with CurrentPlayer := np } np ids).2 with
            | some e =>
                rw [herr] at h
                simp only [] at h
                cases h
            | none =>
                rw [herr] at h
                simp only [] at h
                have hs' : s' = (processDiscard { s with CurrentPlayer := np } np ids).1 := by
                  injection h with h2
                  exact h2.symm
                have hok := processDiscard_ok { s with CurrentPlayer := np } np ids herr
                have hin : np.toNat < 4 := by omega
                subst hs'
                constructor
                · rw [hok.1]
                  exact pendingCount4_set_none s.PendingDiscards np.toNat hin
                    (by rw [hpend]; rfl)
                · refine ⟨np.toNat, hin, ?_, ?_⟩
                  · simp only [Bool.not_eq_true] at hc
                    exact hc
                  · intro hjl
                    rw [hok.2]
                    exact getD_set_self _ _ _ _ hjl

lemma pendingLoop_isSome : ∀ (fuel : Nat) (s : GameState),
    pendingCount4 s.PendingDiscards < fuel → (pendingLoop fuel s).isSome = true := by
  intro fuel
  induction fuel with
  | zero =>
      intro s h
      omega
  | succ n ih =>
      intro s h
      unfold pendingLoop
      cases hscan : innerScan 4 (NextPlayer s.CurrentPlayer) s with
      | ret t => simp
      | allDone => simp
      | proc t =>
          have := (innerScan_proc_spec 4 (NextPlayer s.CurrentPlayer) s t
            (NextPlayer_nonneg _) (NextPlayer_lt_four _) hscan).1
          exact ih t (by omega)

lemma innerScan_all_complete (s : GameState)
    (hall : ∀ i : Nat, i < 4 → s.DiscardComplete.getD i false = true) :
    ∀ (k : Nat) (np : Int), 0 ≤ np → np < 4 → innerScan k np s = .allDone := by
  intro k
  induction k with
  | zero => intro np _ _; rfl
  | succ n ih =>
      intro np h0 h4
      unfold innerScan
      rw [if_neg (not_not_intro (hall np.toNat (by omega)))]
      exact ih (NextPlayer np) (NextPlayer_nonneg np) (NextPlayer_lt_four np)

/-- C10: the pending-discard advancement loop terminates on every input
state (fuel 5 always suffices, because every continuing pass strictly
shrinks the number of buffered selections and completes the visited seat),
and once all four seats are discard-complete it enters `playing` with the
bid winner to act and an empty trick led by the bid winner. -/
theorem claim10_pending_discards (s : GameState) :
    (pendingLoop 5 s).isSome = true
  ∧ (∀ (np : Int) (s' : GameState), 0 ≤ np → np < 4 →
      innerScan 4 np s = .proc s' →
      pendingCount4 s'.PendingDiscards < pendingCount4 s.PendingDiscards
      ∧ ∃ j, j < 4 ∧ s.DiscardComplete.getD j false = false
          ∧ (j < s.DiscardComplete.length → s'.DiscardComplete.getD j false = true))
  ∧ ((∀ i : Nat, i < 4 → s.DiscardComplete.getD i false = true) →
      processPendingDiscards s =
        { s with
          Phase := .playing,
          CurrentPlayer := s.BidWinner,
          CurrentTrick := some
            { Cards := [], Leader := s.BidWinner, LeadSuit := .spades, Winner := 0 } }) := by
  refine ⟨?_, ?_, ?_⟩
  · exact pendingLoop_isSome 5 s (by
      have := pendingCount4_le s.PendingDiscards
      omega)
  · intro np s' h0 h4 h
    exact innerScan_proc_spec 4 np s s' h0 h4 h
  · intro hall
    unfold processPendingDiscards pendingLoop
    rw [innerScan_all_complete s hall 4 (NextPlayer s.CurrentPlayer)
      (NextPlayer_nonneg _) (NextPlayer_lt_four _)]
    simp [allDiscardedTransition]

end Setback

namespace Setback

/-- Witness for C10: the loop terminates on the all-complete state and
transitions to playing with the bid winner (seat 3) to act. -/
theorem claim10_pending_discards_witness :
    (processPendingDiscards wState10).Phase = Phase.playing
  ∧ (processPendingDiscards wState10).CurrentPlayer = 3
  ∧ (pendingLoop 5 wState10).isSome = true := by
  have h := claim10_pending_discards wState10
  have h3 := h.2.2 (by decide)
  refine ⟨?_, ?_, h.1⟩
  · rw [h3]
  · rw [h3]
    rfl

end Setback

namespace Setback

/-- C4: with a non-empty current trick in play: if trump was led, a seat
holding any trump must play trump or is rejected with must-follow-suit; if a
non-trump suit was led and the seat holds a non-trump card of that suit, any
play of a card not of the lead suit — including any trump — is rejected with
must-follow-suit, the record unchanged; a seat holding no card of the lead
suit may legally play any card in its hand. -/
theorem claim4_follow_suit (env : ActEnv) (s : GameState) (a : Action)
    (p : Player) (t : Trick) (trump : Suit) (c : Card) (rest : List Card)
    (hkind : a.Kind = .playCard)
    (hphase : s.Phase = .playing)
    (hturn : a.PlayerIndex = s.CurrentPlayer)
    (hp : s.playerAt a.PlayerIndex = some p)
    (hfind : removeFirstByID p.Hand a.CardID = some (c, rest))
    (htrump : s.Trump = some trump)
    (htrick : s.CurrentTrick = some t)
    (hne : t.Cards ≠ []) :
    (t.LeadSuit = trump → c.IsTrump trump = false →
      (∃ x ∈ p.Hand, x.IsTrump trump = true) →
      ApplyAction env s a = (s, some Err.mustFollowSuit))
  ∧ (t.LeadSuit ≠ trump →
      (∃ x ∈ p.Hand, x.Suit = t.LeadSuit ∧ x.IsTrump trump = false) →
      (c.Suit ≠ t.LeadSuit ∨ c.IsTrump trump = true) →
      ApplyAction env s a = (s, some Err.mustFollowSuit))
  ∧ ((t.LeadSuit = trump → ∀ x ∈ p.Hand, x.IsTrump trump = false) →
     (t.LeadSuit ≠ trump → ∀ x ∈ p.Hand, ¬(x.Suit = t.LeadSuit ∧ x.IsTrump trump = false)) →
      (ApplyAction env s a).2 = none) := by
  have hph : ¬(s.Phase ≠ Phase.playing) := by
    rw [hphase]
    exact fun hh => hh rfl
  have htu : ¬(a.PlayerIndex ≠ s.CurrentPlayer) := by
    rw [hturn]
    exact fun hh => hh rfl
  refine ⟨?_, ?_, ?_⟩
  · intro hlead hcnot hhold
    obtain ⟨x, hx, hxt⟩ := hhold
    simp only [ApplyAction, hkind, applyPlayCard]
    rw [if_neg hph, if_neg htu]
    simp only [hp, hfind, htrump, htrick]
    rw [if_neg hne]
    split
    · split
      · rfl
      · rename_i hcond
        exact absurd ⟨hne, by simp [hcnot], List.any_eq_true.mpr ⟨x, hx, hxt⟩⟩ hcond
    · rename_i hl2
      exact absurd hlead hl2
  · intro hlead hhold hcbad
    obtain ⟨x, hx, hxs, hxnt⟩ := hhold
    simp only [ApplyAction, hkind, applyPlayCard]
    rw [if_neg hph, if_neg htu]
    simp only [hp, hfind, htrump, htrick]
    rw [if_neg hne]
    split
    · rename_i hl2
      exact absurd hl2 hlead
    · split
      · rfl
      · rename_i hcond
        exact absurd
          ⟨hne, List.any_eq_true.mpr ⟨x, hx, by simp [hxs, hxnt]⟩, hcbad⟩ hcond
  · intro h1 h2
    simp only [ApplyAction, hkind, applyPlayCard]
    rw [if_neg hph, if_neg htu]
    simp only [hp, hfind, htrump, htrick]
    rw [if_neg hne]
    split
    · rename_i hl
      split
      · rename_i hcond
        exfalso
        obtain ⟨-, hc1, hany⟩ := hcond
        obtain ⟨y, hy, hyt⟩ := List.any_eq_true.mp hany
        exact absurd (h1 hl y hy) (by simp [hyt])
      · split
        · split <;> rfl
        · rfl
    · rename_i hl
      split
      · rename_i hcond
        exfalso
        obtain ⟨-, hany, hdisj⟩ := hcond
        obtain ⟨y, hy, hyd⟩ := List.any_eq_true.mp hany
        have hyd' := of_decide_eq_true hyd
        exact absurd ⟨hyd'.1, by simpa using hyd'.2⟩ (h2 hl y hy)
      · split
        · split <;> rfl
        · rfl

end Setback

namespace Setback

/-- Witness for C4: with trump hearts and clubs led, seat 2 (holding the 5 of
clubs) has its 9-of-diamonds play rejected with must-follow-suit and the
record unchanged. -/
theorem claim4_follow_suit_witness :
    ApplyAction wEnv wState4 wAct4 = (wState4, some Err.mustFollowSuit) :=
  (claim4_follow_suit wEnv wState4 wAct4 wPlayer4 wTrick4 Suit.hearts wCardD9
    [wCardH10, wCardC5] rfl rfl rfl (by decide) (by decide) rfl rfl
    (by decide)).2.1 (by decide) (by decide) (by decide)

end Setback

namespace Setback

lemma offJack_isTrump (c : Card) (trump : Suit) (h : c.IsOffJack trump = true) :
    c.IsTrump trump = true := by
  unfold Card.IsOffJack at h
  have hc := of_decide_eq_true h
  unfold Card.IsTrump
  simp [hc.1, hc.2, ite_self]

lemma offJack_suit_ne (c : Card) (trump : Suit) (h : c.IsOffJack trump = true) :
    c.Suit ≠ trump := by
  unfold Card.IsOffJack at h
  have hc := of_decide_eq_true h
  rw [hc.2]
  exact offSuit_ne_self trump

lemma findCapturingTeam_eq (pred : Card → Bool) (tricks : List CompletedTrick) :
    findCapturingTeam pred tricks =
      match tricks.find? (fun tr => tr.Cards.any (fun tc => pred tc.Card)) with
      | some tr => GetTeamForPlayer tr.Winner
      | none => -1 := by
  induction tricks with
  | nil => rfl
  | cons tr rest ih =>
      by_cases hm : tr.Cards.any (fun tc => pred tc.Card) = true
      · simp [findCapturingTeam, List.find?_cons, hm]
      · simp only [Bool.not_eq_true] at hm
        simp [findCapturingTeam, List.find?_cons, hm, ih]

lemma highLowStep_fst (trump : Suit) (acc : Option (Card × Int) × Option (Card × Int))
    (tc : TrickCard) :
    (highLowStep trump acc tc).1 = acc.1
    ∨ (tc.Card.Suit = trump ∧ (highLowStep trump acc tc).1 = some (tc.Card, tc.PlayerIndex)) := by
  unfold highLowStep
  by_cases hs : tc.Card.Suit = trump
  · rw [if_pos hs]
    cases h : acc.1 with
    | none => exact Or.inr ⟨hs, by simp [h]⟩
    | some cp =>
        rcases cp with ⟨hc, hp⟩
        by_cases hgt : tc.Card.Rank > hc.Rank
        · exact Or.inr ⟨hs, by simp [h, hgt]⟩
        · exact Or.inl (by simp [h, hgt])
  · rw [if_neg hs]
    exact Or.inl rfl

lemma highLowStep_snd (trump : Suit) (acc : Option (Card × Int) × Option (Card × Int))
    (tc : TrickCard) :
    (highLowStep trump acc tc).2 = acc.2
    ∨ (tc.Card.Suit = trump ∧ (highLowStep trump acc tc).2 = some (tc.Card, tc.PlayerIndex)) := by
  unfold highLowStep
  by_cases hs : tc.Card.Suit = trump
  · rw [if_pos hs]
    cases h : acc.2 with
    | none => exact Or.inr ⟨hs, by simp [h]⟩
    | some cp =>
        rcases cp with ⟨lc, lp⟩
        by_cases hlt : tc.Card.Rank < lc.Rank
        · exact Or.inr ⟨hs, by simp [h, hlt]⟩
        · exact Or.inl (by simp [h, hlt])
  · rw [if_neg hs]
    exact Or.inl rfl

lemma highLow_fold_suits (trump : Suit) (l : List TrickCard) :
    ∀ (acc : Option (Card × Int) × Option (Card × Int)),
    (∀ cp, acc.1 = some cp → cp.1.Suit = trump) →
    (∀ cp, acc.2 = some cp → cp.1.Suit = trump) →
    (∀ cp, (l.foldl (highLowStep trump) acc).1 = some cp → cp.1.Suit = trump)
    ∧ (∀ cp, (l.foldl (highLowStep trump) acc).2 = some cp → cp.1.Suit = trump) := by
  induction l with
  | nil => exact fun acc h1 h2 => ⟨h1, h2⟩
  | cons tc rest ih =>
      intro acc h1 h2
      simp only [List.foldl_cons]
      apply ih
      · intro cp hcp
        rcases highLowStep_fst trump acc tc with he | ⟨hs, he⟩
        · exact h1 cp (he ▸ hcp)
        · rw [he] at hcp
          cases hcp
          exact hs
      · intro cp hcp
        rcases highLowStep_snd trump acc tc with he | ⟨hs, he⟩
        · exact h2 cp (he ▸ hcp)
        · rw [he] at hcp
          cases hcp
          exact hs

lemma scanHighLow_suits (trump : Suit) (tricks : List CompletedTrick) :
    (∀ cp, (scanHighLow trump tricks).1 = some cp → cp.1.Suit = trump)
    ∧ (∀ cp, (scanHighLow trump tricks).2 = some cp → cp.1.Suit = trump) := by
  unfold scanHighLow
  exact highLow_fold_suits trump _ (none, none) (by simp) (by simp)

end Setback

namespace Setback

/-- C5: the off-jack counts as trump for play and follow-suit (`IsTrump` is
true for it and leading it sets the trick's lead suit to trump, not its
native suit); High/Low determination only ever selects cards whose suit
equals the trump suit (so never the off-jack, whose suit differs from
trump); and when the off-jack is played, the Off-Jack point — determined by
the off-suit-jack scan, which the trump-jack scan never matches — goes to
the team of the winner of the first completed trick containing it. -/
theorem claim5_off_jack (s : GameState) (trump : Suit) (h : s.Trump = some trump) :
    (∀ c : Card, c.IsOffJack trump = true → c.IsTrump trump = true ∧ c.Suit ≠ trump)
  ∧ (∀ (env : ActEnv) (a : Action) (p : Player) (t : Trick) (c : Card) (rest : List Card),
      a.Kind = .playCard → s.Phase = .playing → a.PlayerIndex = s.CurrentPlayer →
      s.playerAt a.PlayerIndex = some p →
      removeFirstByID p.Hand a.CardID = some (c, rest) →
      s.CurrentTrick = some t → t.Cards = [] →
      c.IsOffJack trump = true →
      (ApplyAction env s a).2 = none
      ∧ ∃ t', (ApplyAction env s a).1.CurrentTrick = some t' ∧ t'.LeadSuit = trump)
  ∧ (∀ cp, (scanHighLow trump s.CompletedTricks).1 = some cp → cp.1.Suit = trump)
  ∧ (∀ cp, (scanHighLow trump s.CompletedTricks).2 = some cp → cp.1.Suit = trump)
  ∧ ((CalculateScore s).OffJackTeam =
      match s.CompletedTricks.find? (fun tr => tr.Cards.any
          (fun tc => decide (tc.Card.Suit = trump.OffSuit ∧ tc.Card.Rank = 11))) with
      | some tr => GetTeamForPlayer tr.Winner
      | none => -1)
  ∧ ((CalculateScore s).JackTeam =
      match s.CompletedTricks.find? (fun tr => tr.Cards.any
          (fun tc => decide (tc.Card.Suit = trump ∧ tc.Card.Rank = 11))) with
      | some tr => GetTeamForPlayer tr.Winner
      | none => -1)
  ∧ (∀ c : Card, c.IsOffJack trump = true →
      decide (c.Suit = trump ∧ c.Rank = 11) = false) := by
  refine ⟨?_, ?_, (scanHighLow_suits trump s.CompletedTricks).1,
    (scanHighLow_suits trump s.CompletedTricks).2, ?_, ?_, ?_⟩
  · intro c hc
    exact ⟨offJack_isTrump c trump hc, offJack_suit_ne c trump hc⟩
  · intro env a p t c rest hkind hphase hturn hp hfind htrick hempty hoj
    have hph : ¬(s.Phase ≠ Phase.playing) := by
      rw [hphase]
      exact fun hh => hh rfl
    have htu : ¬(a.PlayerIndex ≠ s.CurrentPlayer) := by
      rw [hturn]
      exact fun hh => hh rfl
    have hct : c.IsTrump trump = true := offJack_isTrump c trump hoj
    simp only [ApplyAction, hkind, applyPlayCard]
    rw [if_neg hph, if_neg htu]
    simp only [hp, hfind, h, htrick]
    rw [if_pos hempty]
    rw [if_neg (show ¬(t.Cards ≠ [] ∧ _) from fun hcond => hcond.1 hempty)]
    rw [hempty]
    simp [hct]
    refine ⟨{ Cards := [{ Card := c, PlayerIndex := a.PlayerIndex }], Leader := t.Leader, LeadSuit := trump, Winner := t.Winner }, ?_, rfl⟩
    rw [setHandAt_CurrentTrick]
  · simp only [CalculateScore, h]
    rw [findCapturingTeam_eq]
  · simp only [CalculateScore, h]
    rw [findCapturingTeam_eq]
  · intro c hc
    have hcs := offJack_suit_ne c trump hc
    simp [hcs]

end Setback

namespace Setback

/-- Witness for C5: with trump spades the jack of clubs is trump, and in the
concrete hand its capture awards the Off-Jack point to team 1 (seat 1's
team) while the Jack point stays unawarded. -/
theorem claim5_off_jack_witness :
    (NewCard Suit.clubs 11).IsTrump Suit.spades = true
  ∧ (CalculateScore wState5).OffJackTeam = 1
  ∧ (CalculateScore wState5).JackTeam = -1 := by
  have h := claim5_off_jack wState5 Suit.spades rfl
  refine ⟨(h.1 (NewCard Suit.clubs 11) (by decide)).1, ?_, ?_⟩
  · rw [h.2.2.2.2.1]
    decide
  · rw [h.2.2.2.2.2.1]
    decide

end Setback

namespace Setback

lemma setPlayer_TrumpBroken (s : GameState) (i : Int) (p : Option Player) :
    (s.setPlayer i p).TrumpBroken = s.TrumpBroken := rfl

lemma setHandAt_TrumpBroken (s : GameState) (i : Int) (h : List Card) :
    (setHandAt s i h).TrumpBroken = s.TrumpBroken := by
  unfold setHandAt GameState.setPlayer
  split <;> rfl

lemma processDiscard_TrumpBroken (s : GameState) (i : Int) (ids : List String) :
    (processDiscard s i ids).1.TrumpBroken = s.TrumpBroken := by
  unfold processDiscard
  cases hp : s.playerAt i with
  | none => rfl
  | some p =>
      simp only [hp]
      cases hr : (removeCardsLoop ids p.Hand).2 with
      | some e => simp [setHandAt_TrumpBroken]
      | none => simp [setHandAt_TrumpBroken]

lemma innerScan_TrumpBroken : ∀ (k : Nat) (np : Int) (s s' : GameState),
    (innerScan k np s = .ret s' ∨ innerScan k np s = .proc s') →
    s'.TrumpBroken = s.TrumpBroken := by
  intro k
  induction k with
  | zero =>
      intro np s s' h
      rcases h with h | h <;> cases h
  | succ n ih =>
      intro np s s' h
      unfold innerScan at h
      by_cases hc : s.DiscardComplete.getD np.toNat false = true
      · rw [if_neg (not_not_intro hc)] at h
        exact ih (NextPlayer np) s s' h
      · rw [if_pos hc] at h
        simp only [] at h
        cases hpend : s.PendingDiscards.getD np.toNat none with
        | none =>
            rw [hpend] at h
            simp only [] at h
            rcases h with h | h
            · cases h
              rfl
            · cases h
        | some ids =>
            rw [hpend] at h
            simp only [] at h
            cases herr : (processDiscard { s with CurrentPlayer := np } np ids).2 with
            | some e =>
                rw [herr] at h
                simp only [] at h
                rcases h with h | h
                · cases h
                  exact processDiscard_TrumpBroken { s with CurrentPlayer := np } np ids
                · cases h
            | none =>
                rw [herr] at h
                simp only [] at h
                rcases h with h | h
                · cases h
                · cases h
                  exact processDiscard_TrumpBroken { s with CurrentPlayer := np } np ids

lemma pendingLoop_TrumpBroken : ∀ (fuel : Nat) (s s' : GameState),
    pendingLoop fuel s = some s' → s'.TrumpBroken = s.TrumpBroken := by
  intro fuel
  induction fuel with
  | zero =>
      intro s s' h
      cases h
  | succ n ih =>
      intro s s' h
      unfold pendingLoop at h
      cases hscan : innerScan 4 (NextPlayer s.CurrentPlayer) s with
      | ret t =>
          rw [hscan] at h
          cases h
          exact innerScan_TrumpBroken 4 _ s _ (Or.inl hscan)
      | proc t =>
          rw [hscan] at h
          have h1 := ih t s' h
          have h2 := innerScan_TrumpBroken 4 _ s t (Or.inr hscan)
          rw [h1, h2]
      | allDone =>
          rw [hscan] at h
          cases h
          rfl

lemma processPendingDiscards_TrumpBroken (s : GameState) :
    (processPendingDiscards s).TrumpBroken = s.TrumpBroken := by
  unfold processPendingDiscards
  cases h : pendingLoop 5 s with
  | none => rfl
  | some s' => simpa using pendingLoop_TrumpBroken 5 s s' h

end Setback

namespace Setback

lemma trumpBroken_joinSeat (env : ActEnv) (s : GameState) (a : Action) :
    (applyJoinSeat env s a).1.TrumpBroken = s.TrumpBroken := by
  unfold applyJoinSeat GameState.setPlayer
  try simp only []
  repeat' split
  all_goals rfl

lemma trumpBroken_leaveSeat (s : GameState) (a : Action) :
    (applyLeaveSeat s a).1.TrumpBroken = s.TrumpBroken := by
  unfold applyLeaveSeat GameState.setPlayer
  try simp only []
  repeat' split
  all_goals rfl

lemma trumpBroken_changeName (s : GameState) (a : Action) :
    (applyChangeName s a).1.TrumpBroken = s.TrumpBroken := by
  unfold applyChangeName GameState.setPlayer
  try simp only []
  repeat' split
  all_goals rfl

lemma trumpBroken_kickPlayer (s : GameState) (a : Action) :
    (applyKickPlayer s a).1.TrumpBroken = s.TrumpBroken := by
  unfold applyKickPlayer GameState.setPlayer
  try simp only []
  repeat' split
  all_goals rfl

lemma trumpBroken_transferHouse (s : GameState) (a : Action) :
    (applyTransferHouse s a).1.TrumpBroken = s.TrumpBroken := by
  unfold applyTransferHouse
  try simp only []
  repeat' split
  all_goals rfl

lemma trumpBroken_startGame (env : ActEnv) (s : GameState) (a : Action)
    (h : s.TrumpBroken = false) :
    (applyStartGame env s a).1.TrumpBroken = false := by
  unfold applyStartGame
  try simp only []
  repeat' split
  all_goals first
    | exact h
    | rfl

lemma trumpBroken_placeBid (s : GameState) (a : Action) :
    (applyPlaceBid s a).1.TrumpBroken = s.TrumpBroken := by
  unfold applyPlaceBid
  try simp only []
  repeat' split
  all_goals rfl

lemma trumpBroken_selectTrump (s : GameState) (a : Action) :
    (applySelectTrump s a).1.TrumpBroken = s.TrumpBroken := by
  unfold applySelectTrump
  try simp only []
  repeat' split
  all_goals rfl

lemma trumpBroken_takeKitty (s : GameState) (a : Action) :
    (applyTakeKitty s a).1.TrumpBroken = s.TrumpBroken := by
  unfold applyTakeKitty
  try simp only []
  repeat' split
  all_goals simp [setHandAt_TrumpBroken]

lemma trumpBroken_discard (s : GameState) (a : Action) :
    (applyDiscard s a).1.TrumpBroken = s.TrumpBroken := by
  unfold applyDiscard
  try simp only []
  repeat' split
  all_goals
    simp [setHandAt_TrumpBroken, processPendingDiscards_TrumpBroken]

lemma trumpBroken_discardDraw (s : GameState) (a : Action) :
    (applyDiscardDraw s a).1.TrumpBroken = s.TrumpBroken := by
  unfold applyDiscardDraw
  try simp only []
  repeat' split
  all_goals
    simp [processDiscard_TrumpBroken, processPendingDiscards_TrumpBroken]

set_option maxHeartbeats 1000000 in
lemma trumpBroken_playCard (s : GameState) (a : Action) :
    (applyPlayCard s a).1.TrumpBroken = s.TrumpBroken := by
  unfold applyPlayCard
  by_cases h1 : s.Phase ≠ Phase.playing
  · rw [if_pos h1]
  · rw [if_neg h1]
    by_cases h2 : a.PlayerIndex ≠ s.CurrentPlayer
    · rw [if_pos h2]
    · rw [if_neg h2]
      cases hp : s.playerAt a.PlayerIndex with
      | none => rfl
      | some p =>
          simp only [hp]
          cases hf : removeFirstByID p.Hand a.CardID with
          | none => rfl
          | some pr =>
              rcases pr with ⟨c, rest⟩
              simp only [hf]
              cases ht : s.Trump with
              | none => rfl
              | some trump =>
                  cases htk : s.CurrentTrick with
                  | none => simp only [ht, htk]
                  | some trick0 =>
                      simp only [ht, htk]
                      repeat' split
                      all_goals simp [setHandAt_TrumpBroken]

lemma trumpBroken_resetGame (s : GameState) (a : Action)
    (h : s.TrumpBroken = false) :
    (applyResetGame s a).1.TrumpBroken = false := by
  unfold applyResetGame
  split
  · exact h
  · rfl

lemma trumpBroken_applyAction (env : ActEnv) (s : GameState) (a : Action)
    (h : s.TrumpBroken = false) :
    (ApplyAction env s a).1.TrumpBroken = false := by
  unfold ApplyAction
  cases a.Kind
  case joinSeat => rw [trumpBroken_joinSeat]; exact h
  case leaveSeat => rw [trumpBroken_leaveSeat]; exact h
  case changeName => rw [trumpBroken_changeName]; exact h
  case kickPlayer => rw [trumpBroken_kickPlayer]; exact h
  case transferHouse => rw [trumpBroken_transferHouse]; exact h
  case startGame => exact trumpBroken_startGame env s a h
  case placeBid => rw [trumpBroken_placeBid]; exact h
  case selectTrump => rw [trumpBroken_selectTrump]; exact h
  case takeKitty => rw [trumpBroken_takeKitty]; exact h
  case discard => rw [trumpBroken_discard]; exact h
  case discardDraw => rw [trumpBroken_discardDraw]; exact h
  case playCard => rw [trumpBroken_playCard]; exact h
  case resetGame => exact trumpBroken_resetGame s a h

lemma trumpBroken_scoringStep (s : GameState) :
    (scoringStep s).TrumpBroken = s.TrumpBroken := by
  unfold scoringStep ApplyScore
  try simp only []
  repeat' split
  all_goals rfl

lemma trumpBroken_startNewHand (shuffled : List Card) (s : GameState) :
    (StartNewHand shuffled s).TrumpBroken = false := rfl

lemma trumpBroken_finReset (s : GameState) (reseated : List (Option Player)) :
    (finishedNewHandReset s reseated).TrumpBroken = false := rfl

lemma trumpBroken_takeover (s : GameState) (i : Int) (name token : String) :
    (seatTakeover s i name token).TrumpBroken = s.TrumpBroken := by
  unfold seatTakeover
  split <;> rfl

lemma trumpBroken_rejoin (s : GameState) (i : Int) :
    (rejoinStep s i).TrumpBroken = s.TrumpBroken := by
  unfold rejoinStep
  split <;> rfl

lemma trumpBroken_disconnect (s : GameState) (i : Int) :
    (disconnectStep s i).TrumpBroken = s.TrumpBroken := by
  unfold disconnectStep
  split <;> rfl

/-- C9: in every state the server can reach, the trump-broken flag is false:
it starts false, is reset to false by start-game and each new hand, and no
operation ever sets it true — yet `BuildPublicState` still copies it into
every broadcast view. -/
theorem claim9_trump_broken_dead (s : GameState) (hr : Reachable s) :
    s.TrumpBroken = false ∧ (BuildPublicState s).TrumpBroken = s.TrumpBroken := by
  refine ⟨?_, rfl⟩
  induction hr with
  | init targetScore => rfl
  | step env a hr ih => exact trumpBroken_applyAction env _ a ih
  | newHand shuffled hr ih => exact trumpBroken_startNewHand shuffled _
  | score hr ih => rw [trumpBroken_scoringStep]; exact ih
  | finReset reseated hr ih => exact trumpBroken_finReset _ reseated
  | takeover i name token hr ih => rw [trumpBroken_takeover]; exact ih
  | rejoin i hr ih => rw [trumpBroken_rejoin]; exact ih
  | disconnect i hr ih => rw [trumpBroken_disconnect]; exact ih

/-- Witness for C9 at the freshly created table. -/
theorem claim9_trump_broken_dead_witness :
    (NewGameState 52).TrumpBroken = false
    ∧ (BuildPublicState (NewGameState 52)).TrumpBroken = (NewGameState 52).TrumpBroken :=
  claim9_trump_broken_dead (NewGameState 52) (Reachable.init 52)

end Setback

namespace Setback

lemma setHandAt_Deck (s : GameState) (i : Int) (h : List Card) :
    (setHandAt s i h).Deck = s.Deck := by
  unfold setHandAt GameState.setPlayer
  split <;> rfl

lemma setHandAt_Kitty (s : GameState) (i : Int) (h : List Card) :
    (setHandAt s i h).Kitty = s.Kitty := by
  unfold setHandAt GameState.setPlayer
  split <;> rfl

lemma setHandAt_CompletedTricks (s : GameState) (i : Int) (h : List Card) :
    (setHandAt s i h).CompletedTricks = s.CompletedTricks := by
  unfold setHandAt GameState.setPlayer
  split <;> rfl

lemma setHandAt_TricksPlayed (s : GameState) (i : Int) (h : List Card) :
    (setHandAt s i h).TricksPlayed = s.TricksPlayed := by
  unfold setHandAt GameState.setPlayer
  split <;> rfl

lemma setHandAt_Players (s : GameState) (i : Int) (h : List Card) (p : Player)
    (hp : s.playerAt i = some p) :
    (setHandAt s i h).Players = s.Players.set i.toNat (some { p with Hand := h }) := by
  unfold setHandAt
  rw [hp]
  rfl

lemma removeFirstByID_perm (id : String) (c : Card) :
    ∀ (l rest : List Card), removeFirstByID l id = some (c, rest) →
      (l : Multiset Card) = c ::ₘ (rest : Multiset Card) := by
  intro l
  induction l with
  | nil => intro rest h; cases h
  | cons x t ih =>
      intro rest h
      unfold removeFirstByID at h
      by_cases he : x.ID = id
      · rw [if_pos he] at h
        cases h
        rfl
      · rw [if_neg he] at h
        cases hr : removeFirstByID t id with
        | none =>
            rw [hr] at h
            cases h
        | some pr =>
            rcases pr with ⟨c2, rest2⟩
            rw [hr] at h
            cases h
            have hrec := ih rest2 hr
            rw [← Multiset.cons_coe, hrec, Multiset.cons_swap, Multiset.cons_coe]

lemma handsCards_cons (q : Option Player) (t : List (Option Player)) :
    handsCards (q :: t) =
      (match q with
        | none => (0 : Multiset Card)
        | some p => (p.Hand : Multiset Card)) + handsCards t := by
  unfold handsCards
  simp

lemma handsCards_set (p : Player) (newHand : List Card) :
    ∀ (players : List (Option Player)) (i : Nat),
      players.getD i none = some p →
      handsCards (players.set i (some { p with Hand := newHand })) + (p.Hand : Multiset Card)
        = handsCards players + (newHand : Multiset Card) := by
  intro players
  induction players with
  | nil =>
      intro i hp
      simp [List.getD] at hp
  | cons q t ih =>
      intro i hp
      cases i with
      | zero =>
          rw [List.getD_cons_zero] at hp
          subst hp
          simp only [List.set, handsCards_cons]
          abel
      | succ n =>
          rw [List.getD_cons_succ] at hp
          simp only [List.set, handsCards_cons]
          have := ih n hp
          calc (match q with
                | none => (0 : Multiset Card)
                | some p => (p.Hand : Multiset Card)) + handsCards (t.set n (some { p with Hand := newHand }))
                  + (p.Hand : Multiset Card)
              = (match q with
                | none => (0 : Multiset Card)
                | some p => (p.Hand : Multiset Card))
                  + (handsCards (t.set n (some { p with Hand := newHand })) + (p.Hand : Multiset Card)) := by
                abel
            _ = (match q with
                | none => (0 : Multiset Card)
                | some p => (p.Hand : Multiset Card)) + (handsCards t + (newHand : Multiset Card)) := by
                rw [this]
            _ = (match q with
                | none => (0 : Multiset Card)
                | some p => (p.Hand : Multiset Card)) + handsCards t + (newHand : Multiset Card) := by
                abel

lemma coe_split_take_drop (n : Nat) (l : List Card) :
    (l : Multiset Card) = (↑(l.take n) : Multiset Card) + ↑(l.drop n) := by
  conv_lhs => rw [← List.take_append_drop n l]
  exact (Multiset.coe_add _ _).symm

end Setback

namespace Setback

/-! ### Error atomicity of the individual actions (for the partial-mutation
analysis): each handler either succeeds or hands back the state it was
given — except the three kitty/discard handlers, which mutate first. -/

lemma errOr_joinSeat (env : ActEnv) (s : GameState) (a : Action) :
    (applyJoinSeat env s a).2 = none ∨ (applyJoinSeat env s a).1 = s := by
  unfold applyJoinSeat
  try simp only []
  repeat' split
  all_goals first | exact Or.inl rfl | exact Or.inr rfl

lemma errOr_leaveSeat (s : GameState) (a : Action) :
    (applyLeaveSeat s a).2 = none ∨ (applyLeaveSeat s a).1 = s := by
  unfold applyLeaveSeat
  try simp only []
  repeat' split
  all_goals first | exact Or.inl rfl | exact Or.inr rfl

lemma errOr_changeName (s : GameState) (a : Action) :
    (applyChangeName s a).2 = none ∨ (applyChangeName s a).1 = s := by
  unfold applyChangeName
  try simp only []
  repeat' split
  all_goals first | exact Or.inl rfl | exact Or.inr rfl

lemma errOr_kickPlayer (s : GameState) (a : Action) :
    (applyKickPlayer s a).2 = none ∨ (applyKickPlayer s a).1 = s := by
  unfold applyKickPlayer
  try simp only []
  repeat' split
  all_goals first | exact Or.inl rfl | exact Or.inr rfl

lemma errOr_transferHouse (s : GameState) (a : Action) :
    (applyTransferHouse s a).2 = none ∨ (applyTransferHouse s a).1 = s := by
  unfold applyTransferHouse
  try simp only []
  repeat' split
  all_goals first | exact Or.inl rfl | exact Or.inr rfl

lemma errOr_startGame (env : ActEnv) (s : GameState) (a : Action) :
    (applyStartGame env s a).2 = none ∨ (applyStartGame env s a).1 = s := by
  unfold applyStartGame
  try simp only []
  repeat' split
  all_goals first | exact Or.inl rfl | exact Or.inr rfl

lemma errOr_placeBid (s : GameState) (a : Action) :
    (applyPlaceBid s a).2 = none ∨ (applyPlaceBid s a).1 = s := by
  unfold applyPlaceBid
  try simp only []
  repeat' split
  all_goals first | exact Or.inl rfl | exact Or.inr rfl

lemma errOr_selectTrump (s : GameState) (a : Action) :
    (applySelectTrump s a).2 = none ∨ (applySelectTrump s a).1 = s := by
  unfold applySelectTrump
  try simp only []
  repeat' split
  all_goals first | exact Or.inl rfl | exact Or.inr rfl

set_option maxHeartbeats 1000000 in
lemma errOr_playCard (s : GameState) (a : Action) :
    (applyPlayCard s a).2 = none ∨ (applyPlayCard s a).1 = s := by
  unfold applyPlayCard
  by_cases h1 : s.Phase ≠ Phase.playing
  · rw [if_pos h1]
    exact Or.inr rfl
  · rw [if_neg h1]
    by_cases h2 : a.PlayerIndex ≠ s.CurrentPlayer
    · rw [if_pos h2]
      exact Or.inr rfl
    · rw [if_neg h2]
      cases hp : s.playerAt a.PlayerIndex with
      | none => exact Or.inr rfl
      | some p =>
          simp only []
          cases hf : removeFirstByID p.Hand a.CardID with
          | none => exact Or.inr rfl
          | some pr =>
              rcases pr with ⟨c, rest⟩
              simp only []
              cases ht : s.Trump with
              | none => exact Or.inr rfl
              | some trump =>
                  cases htk : s.CurrentTrick with
                  | none => exact Or.inr rfl
                  | some t =>
                      simp only []
                      repeat' split
                      all_goals first | exact Or.inl rfl | exact Or.inr rfl

lemma errOr_resetGame (s : GameState) (a : Action) :
    (applyResetGame s a).2 = none ∨ (applyResetGame s a).1 = s := by
  unfold applyResetGame
  try simp only []
  repeat' split
  all_goals first | exact Or.inl rfl | exact Or.inr rfl

end Setback

namespace Setback

/-- C1 (amended): for every action other than take-kitty, discard and
discard-draw, an error leaves the game record exactly as it was — the three
kitty/discard handlers, by contrast, can mutate the record before failing
(see the counterexample). -/
theorem claim1_error_atomicity (env : ActEnv) (s : GameState) (a : Action)
    (hk1 : a.Kind ≠ ActionType.takeKitty) (hk2 : a.Kind ≠ ActionType.discard)
    (hk3 : a.Kind ≠ ActionType.discardDraw)
    (herr : (ApplyAction env s a).2.isSome = true) :
    (ApplyAction env s a).1 = s := by
  have hor : (ApplyAction env s a).2 = none ∨ (ApplyAction env s a).1 = s := by
    unfold ApplyAction
    cases hk : a.Kind
    · exact errOr_joinSeat env s a
    · exact errOr_leaveSeat s a
    · exact errOr_changeName s a
    · exact errOr_kickPlayer s a
    · exact errOr_transferHouse s a
    · exact errOr_startGame env s a
    · exact errOr_placeBid s a
    · exact errOr_selectTrump s a
    · exact absurd hk hk1
    · exact absurd hk hk2
    · exact absurd hk hk3
    · exact errOr_playCard s a
    · exact errOr_resetGame s a
  rcases hor with h | h
  · rw [h] at herr
    cases herr
  · exact h

end Setback

namespace Setback

/-- Witness for C1: a bid placed in the lobby fails and changes nothing. -/
theorem claim1_error_atomicity_witness :
    (ApplyAction wEnv (NewGameState 52) (bidAct 0 2)).1 = NewGameState 52 :=
  claim1_error_atomicity wEnv (NewGameState 52) (bidAct 0 2)
    (by decide) (by decide) (by decide) (by decide)

end Setback

namespace Setback

/-- Counterexample to C1 as stated: a take-kitty action that names a card of
the kitty and then a bogus id fails with `ErrCardNotInKitty`, yet the record
has already been mutated — the named card has moved from the kitty into the
bid winner's hand. -/
theorem claim1_counterexample :
    (ApplyAction wEnv cexState1 cexAct1).2 = some Err.cardNotInKitty
  ∧ (ApplyAction wEnv cexState1 cexAct1).1 ≠ cexState1 := by
  exact ⟨by decide, by decide⟩

end Setback

namespace Setback

lemma handsCards_remove (players : List (Option Player)) (i : Nat) (p : Player)
    (c : Card) (rest : List Card)
    (hp : players.getD i none = some p)
    (hmul : (p.Hand : Multiset Card) = c ::ₘ (rest : Multiset Card)) :
    handsCards (players.set i (some { p with Hand := rest })) + {c}
      = handsCards players := by
  have h := handsCards_set p rest players i hp
  rw [hmul, ← Multiset.singleton_add] at h
  have h2 : handsCards (players.set i (some { p with Hand := rest })) + {c}
      + (rest : Multiset Card) = handsCards players + (rest : Multiset Card) := by
    rw [← h]
    abel
  exact add_right_cancel h2

end Setback

namespace Setback

set_option maxHeartbeats 1000000 in
lemma trackedCards_playCard (s : GameState) (a : Action) (htp : s.TricksPlayed ≠ 5) :
    trackedCards (applyPlayCard s a).1 = trackedCards s := by
  unfold applyPlayCard
  by_cases h1 : s.Phase ≠ Phase.playing
  · rw [if_pos h1]
  · rw [if_neg h1]
    by_cases h2 : a.PlayerIndex ≠ s.CurrentPlayer
    · rw [if_pos h2]
    · rw [if_neg h2]
      cases hp : s.playerAt a.PlayerIndex with
      | none => rfl
      | some p =>
          simp only []
          cases hf : removeFirstByID p.Hand a.CardID with
          | none => rfl
          | some pr =>
              rcases pr with ⟨c, rest⟩
              simp only []
              cases ht : s.Trump with
              | none => rfl
              | some trump =>
                  cases htk : s.CurrentTrick with
                  | none => rfl
                  | some t =>
                      simp only []
                      have hpD : s.Players.getD a.PlayerIndex.toNat none = some p := hp
                      have hmul : (p.Hand : Multiset Card) = c ::ₘ (rest : Multiset Card) :=
                        removeFirstByID_perm a.CardID c p.Hand rest hf
                      have hrem : handsCards (s.Players.set a.PlayerIndex.toNat
                            (some { p with Hand := rest })) + {c}
                          = handsCards s.Players :=
                        handsCards_remove s.Players a.PlayerIndex.toNat p c rest hpD hmul
                      by_cases hemp : t.Cards = []
                      · rw [if_pos hemp, hemp]
                        rw [if_neg (by simp : ¬(([] ++
                          [({ Card := c, PlayerIndex := a.PlayerIndex } : TrickCard)] :
                            List TrickCard).length = 4))]
                        repeat' split
                        all_goals try rfl
                        all_goals
                          simp only [setHandAt, GameState.playerAt, GameState.setPlayer]
                          rw [hpD]
                          try simp only []
                          simp only [trackedCards, trickCardsM, completedCardsM, htk,
                            List.map_append, List.map_cons, List.map_nil,
                            List.flatMap_append, List.flatMap_cons, List.flatMap_nil,
                            List.append_nil, List.nil_append, hemp,
                            ← Multiset.coe_add, Multiset.coe_singleton, Multiset.coe_nil]
                          rw [← hrem]
                          abel
                      · rw [if_neg hemp]
                        simp only [setHandAt_TricksPlayed]
                        rw [if_neg (show ¬(s.TricksPlayed + 1 = 6) by omega)]
                        repeat' split
                        all_goals try rfl
                        all_goals
                          simp only [setHandAt, GameState.playerAt, GameState.setPlayer]
                          rw [hpD]
                          try simp only []
                          simp only [trackedCards, trickCardsM, completedCardsM, htk,
                            List.map_append, List.map_cons, List.map_nil,
                            List.flatMap_append, List.flatMap_cons, List.flatMap_nil,
                            List.append_nil, List.nil_append,
                            ← Multiset.coe_add, Multiset.coe_singleton, Multiset.coe_nil]
                          rw [← hrem]
                          abel

end Setback

namespace Setback

lemma trackedCards_placeBid (s : GameState) (a : Action) :
    trackedCards (applyPlaceBid s a).1 = trackedCards s := by
  unfold applyPlaceBid
  try simp only []
  repeat' split
  all_goals rfl

lemma trackedCards_selectTrump (s : GameState) (a : Action) :
    trackedCards (applySelectTrump s a).1 = trackedCards s := by
  unfold applySelectTrump
  try simp only []
  repeat' split
  all_goals rfl

lemma trackedCards_startGame (env : ActEnv) (s : GameState) (a : Action)
    (hlen : s.Players.length = 4) (hperm : env.shuffled.Perm NewDeck)
    (hct : s.CurrentTrick = none)
    (hsucc : (applyStartGame env s a).2 = none) :
    trackedCards (applyStartGame env s a).1 = fullDeckCards := by
  by_cases h1 : s.Phase = Phase.lobby
  case neg => exfalso; simp [applyStartGame, h1] at hsucc
  by_cases h2 : a.PlayerIndex = s.House
  case neg => exfalso; simp [applyStartGame, h1, h2] at hsucc
  by_cases h3 : s.AllPlayersSeated = true
  case neg => exfalso; simp [applyStartGame, h1, h2, h3] at hsucc
  obtain ⟨q0, q1, q2, q3, hP⟩ := exists_four s.Players hlen
  have hall := h3
  rw [GameState.AllPlayersSeated, hP] at hall
  simp only [List.all_cons, List.all_nil, Bool.and_true, Bool.and_eq_true] at hall
  obtain ⟨p0, h0⟩ := Option.isSome_iff_exists.mp hall.1
  obtain ⟨p1, hh1⟩ := Option.isSome_iff_exists.mp hall.2.1
  obtain ⟨p2, hh2⟩ := Option.isSome_iff_exists.mp hall.2.2.1
  obtain ⟨p3, hh3⟩ := Option.isSome_iff_exists.mp hall.2.2.2
  subst h0 hh1 hh2 hh3
  have hres : applyStartGame env s a =
      ({ s with
          Players := [some { p0 with Hand := env.shuffled.take 6 },
                      some { p1 with Hand := (env.shuffled.drop 6).take 6 },
                      some { p2 with Hand := (env.shuffled.drop 12).take 6 },
                      some { p3 with Hand := (env.shuffled.drop 18).take 6 }],
          Deck := some (env.shuffled.drop 30),
          Kitty := (env.shuffled.drop 24).take 6,
          Phase := .bidding,
          CurrentPlayer := NextPlayer s.Dealer,
          Bids := [],
          Trump := none,
          TricksPlayed := 0,
          CompletedTricks := [],
          CardsWon := ([], []),
          LastTrick := none,
          DiscardComplete := [false, false, false, false],
          PendingDiscards := [none, none, none, none],
          TrumpBroken := false }, none) := by
    simp only [applyStartGame, h1, h2, h3]
    simp [Deal, setHandAt, GameState.playerAt, GameState.setPlayer, hP,
      GameState.PlayerAfterDealer, List.drop_drop]
  have hsh : (env.shuffled : Multiset Card) = fullDeckCards :=
    Multiset.coe_eq_coe.mpr hperm
  have h6 : ∀ (l : List Card), (↑(l.take 6) : Multiset Card) + ↑(l.drop 6) = ↑l :=
    fun l => (coe_split_take_drop 6 l).symm
  have k24 : (↑((env.shuffled.drop 24).take 6) : Multiset Card)
      + ↑(env.shuffled.drop 30) = ↑(env.shuffled.drop 24) := by
    simpa using h6 (env.shuffled.drop 24)
  have k18 : (↑((env.shuffled.drop 18).take 6) : Multiset Card)
      + ↑(env.shuffled.drop 24) = ↑(env.shuffled.drop 18) := by
    simpa using h6 (env.shuffled.drop 18)
  have k12 : (↑((env.shuffled.drop 12).take 6) : Multiset Card)
      + ↑(env.shuffled.drop 18) = ↑(env.shuffled.drop 12) := by
    simpa using h6 (env.shuffled.drop 12)
  have k6 : (↑((env.shuffled.drop 6).take 6) : Multiset Card)
      + ↑(env.shuffled.drop 12) = ↑(env.shuffled.drop 6) := by
    simpa using h6 (env.shuffled.drop 6)
  have hsum : (↑(env.shuffled.take 6) : Multiset Card)
      + (↑((env.shuffled.drop 6).take 6)
      + (↑((env.shuffled.drop 12).take 6)
      + (↑((env.shuffled.drop 18).take 6)
      + (↑((env.shuffled.drop 24).take 6)
      + ↑(env.shuffled.drop 30))))) = ↑env.shuffled := by
    rw [k24, k18, k12, k6]
    exact h6 env.shuffled
  rw [hres]
  simp only [trackedCards, trickCardsM, completedCardsM, handsCards,
    List.map_cons, List.map_nil, List.sum_cons, List.sum_nil, List.flatMap_nil,
    Option.getD_some, hct, Multiset.coe_nil]
  rw [← hsh, ← hsum]
  abel

end Setback

namespace Setback

/-- C2 (amended): a successful start-game over a shuffled full deck in a
four-seat game with no stale trick tracks exactly the 52-card deck across
deck, hands, kitty, current trick and completed tricks; place-bid and
select-trump never change the tracked multiset; and a play-card before the
hand's last trick preserves it.  (The claim's universal form is false: the
untaken kitty is dropped from every collection by take-kitty, and the
hand-ending play archives the final trick while also leaving it as the
current trick — see the counterexample.) -/
theorem claim2_card_conservation (env : ActEnv) (s : GameState) (a : Action) :
    (a.Kind = ActionType.startGame → s.Players.length = 4 →
      env.shuffled.Perm NewDeck → s.CurrentTrick = none →
      (ApplyAction env s a).2 = none →
      trackedCards (ApplyAction env s a).1 = fullDeckCards)
  ∧ (a.Kind = ActionType.placeBid →
      trackedCards (ApplyAction env s a).1 = trackedCards s)
  ∧ (a.Kind = ActionType.selectTrump →
      trackedCards (ApplyAction env s a).1 = trackedCards s)
  ∧ (a.Kind = ActionType.playCard → s.TricksPlayed ≠ 5 →
      trackedCards (ApplyAction env s a).1 = trackedCards s) := by
  refine ⟨?_, ?_, ?_, ?_⟩
  · intro hk hlen hperm hct hsucc
    simp only [ApplyAction, hk] at hsucc ⊢
    exact trackedCards_startGame env s a hlen hperm hct hsucc
  · intro hk
    simp only [ApplyAction, hk]
    exact trackedCards_placeBid s a
  · intro hk
    simp only [ApplyAction, hk]
    exact trackedCards_selectTrump s a
  · intro hk htp
    simp only [ApplyAction, hk]
    exact trackedCards_playCard s a htp

/-- Witness for C2: starting the game from the fully seated lobby deals the
whole 52-card deck. -/
theorem claim2_card_conservation_witness :
    trackedCards (ApplyAction wEnv c2s4 startAct).1 = fullDeckCards :=
  (claim2_card_conservation wEnv c2s4 startAct).1 rfl (by decide)
    (List.Perm.refl _) (by decide) (by decide)

/-- Counterexample to C2 as stated: in the reachable kitty-phase state in
which the bid winner took no kitty cards, only 46 of the 52 cards remain
across deck, hands, kitty and tricks — the six untaken kitty cards are
discarded out of existence. -/
theorem claim2_counterexample :
    Reachable c2s11 ∧ trackedCards c2s11 ≠ fullDeckCards := by
  constructor
  · exact Reachable.step wEnv kittyAct (Reachable.step wEnv trumpAct
      (Reachable.step wEnv (bidAct 0 0) (Reachable.step wEnv (bidAct 3 0)
      (Reachable.step wEnv (bidAct 2 0) (Reachable.step wEnv (bidAct 1 2)
      (Reachable.step wEnv startAct (Reachable.step wEnv (joinAct 3 "d")
      (Reachable.step wEnv (joinAct 2 "c") (Reachable.step wEnv (joinAct 1 "b")
      (Reachable.step wEnv (joinAct 0 "a") (Reachable.init 52)))))))))))
  · intro he
    have hc : (trackedCards c2s11).card = 46 := by decide
    rw [he] at hc
    have hf : fullDeckCards.card = 52 := by decide
    rw [hf] at hc
    exact absurd hc (by decide)

end Setback
